import Mathlib

/-!
Outdoor scaling module (`src/mod_outdoor_scaling.cpp`).

A shallow embedding of the configuration model, the override-string reader
`ParseOverrideString`, the resolver `ComputeScaling`, the configuration load, the two
hooks that apply the multipliers and the two inspection commands, followed by the
properties proved about them.

Conventions of the embedding
* `uint32` / `uint8` values are natural numbers; a narrowing cast is an explicit `%`.
* a C++ `float` is a value of `F32` (IEEE-754 binary32: finite values, two
  infinities, one NaN), compared the IEEE way.
* a `std::string` is a `List Char`.
* a `std::unordered_map<uint32, std::pair<float, float>>` is an association list
  with at most one pair per key (`UMap`).
* a pointer that may be null is an `Option`.
* an out-of-range `std::array` subscript is `none`, and so is a conversion of a float
  to an integer type that cannot hold its truncated value.
* `std::stoul` and `std::stof` are embedded as the GNU C++ library computes them on
  x86-64 (`strtoul` and `strtof` of the GNU C library, an exception for no conversion
  and for `ERANGE`); the properties of the reader that hold whatever the two
  conversions compute are stated for arbitrary conversions.
-/

namespace OutdoorScaling

/-! ## C++ `float` -/

/-- Value of a C++ `float`. `fin neg m e` is the finite number `(-1)^neg * m * 2^e`;
in canonical form `e ≥ -149`, `m < 2^24`, and `m ≥ 2^23` unless `e = -149`
(subnormals and the two zeros). NaN payloads are not distinguished. -/
inductive F32 where
  | nan : F32
  | inf (neg : Bool) : F32
  | fin (neg : Bool) (m : Nat) (e : Int) : F32
  deriving DecidableEq, Repr

namespace F32

/-- The literal `0.0f`. -/
def zero : F32 := .fin false 0 (-149)

/-- The literal `1.0f` (`2^23 * 2^-23`). -/
def one : F32 := .fin false 8388608 (-23)

/-- Position of a non-NaN value on the extended real line: `-1`, `0`, `1` for
negative infinity, a finite value, positive infinity, then the finite value in units
of `2^-149`. -/
def key : F32 → Option (Int × Int)
  | .nan => none
  | .inf false => some (1, 0)
  | .inf true => some (-1, 0)
  | .fin neg m e =>
    let v : Int := ((m * 2 ^ (e + 149).toNat : Nat) : Int)
    some (0, if neg then -v else v)

/-- The C++ comparison `a <= b` on floats: false as soon as one side is NaN. -/
def le (a b : F32) : Bool :=
  match a.key, b.key with
  | some x, some y => decide (x.1 < y.1) || (decide (x.1 = y.1) && decide (x.2 ≤ y.2))
  | _, _ => false

/-- The C++ comparison `a < b` on floats: false as soon as one side is NaN. -/
def lt (a b : F32) : Bool :=
  match a.key, b.key with
  | some x, some y => decide (x.1 < y.1) || (decide (x.1 = y.1) && decide (x.2 < y.2))
  | _, _ => false

end F32

/-! ## Data model -/

/-- `OutdoorScalingInfo::Source`. -/
inductive Source where
  | None
  | Continent
  | ZoneOverride
  | CreatureOverride
  | Disabled
  | NotOutdoor
  | PetOrGuardian
  deriving DecidableEq, Repr

/-- `std::unordered_map<uint32, std::pair<float, float>>`. -/
abbrev UMap := List (Nat × (F32 × F32))

namespace UMap

/-- `m.find(k)`: `none` stands for `m.end()`. -/
def find (m : UMap) (k : Nat) : Option (F32 × F32) :=
  match m with
  | [] => none
  | (k', v) :: rest => if k' = k then some v else find rest k

/-- `m[k] = v`: the pair stored under `k` is replaced, or a new pair is added. -/
def set (m : UMap) (k : Nat) (v : F32 × F32) : UMap :=
  (k, v) :: m.filter (fun p => p.1 ≠ k)

end UMap

/-- `std::array<float, 3>`. -/
structure Array3 where
  a0 : F32
  a1 : F32
  a2 : F32
  deriving DecidableEq, Repr

/-- Subscript `a[i]`; `none` when `i` is not one of the three slots. -/
def Array3.get? (a : Array3) : Nat → Option F32
  | 0 => some a.a0
  | 1 => some a.a1
  | 2 => some a.a2
  | _ => none

/-- `OutdoorScalingConfig` (the global `gConfig`). -/
structure OutdoorScalingConfig where
  enabled : Bool := true
  continentHealth : Array3 := ⟨F32.one, F32.one, F32.one⟩
  continentDamage : Array3 := ⟨F32.one, F32.one, F32.one⟩
  zoneOverrides : UMap := []
  creatureOverrides : UMap := []
  deriving DecidableEq, Repr

/-- What the module reads from the engine's `MapEntry`: `IsContinent()` and the
`uint8` that `ClampExpansion` receives from `Expansion()`. -/
structure MapEntry where
  isContinent : Bool
  expansion : Nat
  deriving DecidableEq, Repr

/-- What the module reads from the engine's `Map`: `GetEntry()` (may be null) and
`Instanceable()`. -/
structure Map where
  entry : Option MapEntry
  instanceable : Bool
  deriving DecidableEq, Repr

/-- `ScalingResult`, with the defaults of its member initialisers. -/
structure ScalingResult where
  healthMult : F32 := F32.one
  damageMult : F32 := F32.one
  source : Source := Source.None
  zoneId : Nat := 0
  expansion : Nat := 0
  deriving DecidableEq, Repr

/-! ## Resolver -/

/-- `IsOutdoorContinent(Map const* map)`. -/
def IsOutdoorContinent (map : Option Map) : Bool :=
  match map with
  | none => false
  | some m =>
    match m.entry with
    | none => false
    | some entry => !m.instanceable && entry.isContinent

/-- `ClampExpansion(uint8 expansion)`. -/
def ClampExpansion (expansion : Nat) : Nat :=
  if expansion > 2 then 2 else expansion

/-- `ComputeScaling(map, zoneId, creatureEntry, isPetOrGuardian)` reading the
configuration `gConfig`. The result is `none` only if a continent table is
subscripted outside its three slots. -/
def ComputeScaling (gConfig : OutdoorScalingConfig) (map : Option Map)
    (zoneId creatureEntry : Nat) (isPetOrGuardian : Bool) : Option ScalingResult :=
  let result : ScalingResult := { zoneId := zoneId }
  if !gConfig.enabled then
    some { result with source := Source.Disabled }
  else
    match map with
    | none => some { result with source := Source.NotOutdoor }
    | some m =>
      if !IsOutdoorContinent (some m) then
        some { result with source := Source.NotOutdoor }
      else if isPetOrGuardian then
        some { result with source := Source.PetOrGuardian }
      else
        let result : ScalingResult :=
          { result with
            expansion :=
              match m.entry with
              | some entry => ClampExpansion entry.expansion
              | none => 0 }
        match gConfig.creatureOverrides.find creatureEntry with
        | some creatureIt =>
          some { result with
                 healthMult := creatureIt.1
                 damageMult := creatureIt.2
                 source := Source.CreatureOverride }
        | none =>
          match gConfig.zoneOverrides.find zoneId with
          | some zoneIt =>
            some { result with
                   healthMult := zoneIt.1
                   damageMult := zoneIt.2
                   source := Source.ZoneOverride }
          | none =>
            match gConfig.continentHealth.get? result.expansion,
                  gConfig.continentDamage.get? result.expansion with
            | some h, some d =>
              some { result with
                     healthMult := h
                     damageMult := d
                     source := Source.Continent }
            | _, _ => none

/-! ## C library conversions used by the override reader -/

/-- `isspace` in the "C" locale: space, `\t`, `\n`, `\v`, `\f`, `\r`. -/
def isSpace (c : Char) : Bool :=
  c.toNat = 32 || (9 ≤ c.toNat && c.toNat ≤ 13)

/-- Value of a decimal digit character. -/
def digitVal (c : Char) : Option Nat :=
  if 48 ≤ c.toNat && c.toNat ≤ 57 then some (c.toNat - 48) else none

/-- Value of a hexadecimal digit character. -/
def hexVal (c : Char) : Option Nat :=
  if 48 ≤ c.toNat && c.toNat ≤ 57 then some (c.toNat - 48)
  else if 97 ≤ c.toNat && c.toNat ≤ 102 then some (c.toNat - 87)
  else if 65 ≤ c.toNat && c.toNat ≤ 70 then some (c.toNat - 55)
  else none

/-- ASCII lower-casing of one character. -/
def lowerChar (c : Char) : Char :=
  if 65 ≤ c.toNat && c.toNat ≤ 90 then Char.ofNat (c.toNat + 32) else c

/-- The longest run of digits (in the given digit reading) at the head of `s`:
the digit values read, and the characters after them. -/
def takeDigits (val : Char → Option Nat) : List Char → List Nat × List Char
  | [] => ([], [])
  | c :: cs =>
    match val c with
    | none => ([], c :: cs)
    | some d => let r := takeDigits val cs; (d :: r.1, r.2)

/-- Number denoted by a digit sequence in the given base. -/
def digitsToNat (base : Nat) (ds : List Nat) : Nat :=
  ds.foldl (fun acc d => acc * base + d) 0

/-- An optional sign at the head of `s`: whether it is `-`, and the rest. -/
def takeSign : List Char → Bool × List Char
  | '-' :: cs => (true, cs)
  | '+' :: cs => (false, cs)
  | cs => (false, cs)

/-- Largest `unsigned long` (LP64). -/
def ULONG_MAX : Nat := 2 ^ 64 - 1

/-- `std::stoul(str)` (base 10, no position output): leading white space and an
optional sign are accepted, the longest run of digits is converted and what follows
is ignored. `none` stands for a thrown exception: `std::invalid_argument` when there
is no digit, `std::out_of_range` when the magnitude exceeds `ULONG_MAX`. A leading
`-` negates the magnitude in `unsigned long` arithmetic. -/
def stoul (str : List Char) : Option Nat :=
  let s := takeSign (str.dropWhile isSpace)
  let ds := (takeDigits digitVal s.2).1
  if ds.isEmpty then none
  else
    let v := digitsToNat 10 ds
    if v > ULONG_MAX then none
    else some (if s.1 then (ULONG_MAX + 1 - v) % (ULONG_MAX + 1) else v)

namespace F32

/-- Auxiliary to `ilog2`: at most `fuel` halvings. -/
def ilog2Aux : Nat → Nat → Nat
  | 0, _ => 0
  | fuel + 1, n => if n < 2 then 0 else ilog2Aux fuel (n / 2) + 1

/-- The integer part of the binary logarithm of `n` (`0` for `n = 0`). -/
def ilog2 (n : Nat) : Nat := ilog2Aux n n

/-- Whether `num / den ≥ 2^x`. -/
def geTwoPow (num den : Nat) (x : Int) : Bool :=
  match x with
  | Int.ofNat k => decide (den * 2 ^ k ≤ num)
  | Int.negSucc k => decide (den ≤ num * 2 ^ (k + 1))

/-- The rational `num / den` (with `den > 0`) rounded to the nearest `float`, ties to
even, with the given sign. The second component tells whether the result overflowed to
an infinity or is a subnormal that is not exact. -/
def roundRat (neg : Bool) (num den : Nat) : F32 × Bool :=
  if num = 0 then (.fin neg 0 (-149), false)
  else
    let k0 : Int := (ilog2 num : Int) - (ilog2 den : Int)
    let k : Int := if geTwoPow num den k0 then k0 else k0 - 1
    let e : Int := max (k - 23) (-149)
    let n : Nat := num * 2 ^ (-e).toNat
    let d : Nat := den * 2 ^ e.toNat
    let q := n / d
    let r := n % d
    let m := if 2 * r > d || (2 * r = d && q % 2 = 1) then q + 1 else q
    let me : Nat × Int := if m = 2 ^ 24 then (2 ^ 23, e + 1) else (m, e)
    if me.2 > 104 then (.inf neg, true)
    else (.fin neg me.1 me.2, decide (me.1 < 2 ^ 23) && decide (r ≠ 0))

/-- The constant `std::numeric_limits<float>::epsilon()`, `2^-23`. -/
def epsilon : F32 := .fin false 8388608 (-46)

/-- The number `mag * 2^x` with the given sign, rounded to `float`. -/
def roundScaled (neg : Bool) (mag : Nat) (x : Int) : F32 :=
  match x with
  | Int.ofNat k => (roundRat neg (mag * 2 ^ k) 1).1
  | Int.negSucc k => (roundRat neg mag (2 ^ (k + 1))).1

/-- The conversion `float(n)` of an unsigned integer. -/
def ofUInt32 (n : Nat) : F32 := (roundRat false n 1).1

/-- The conversion `float(i)` of a signed integer. -/
def ofInt32 (i : Int) : F32 := (roundRat (decide (i < 0)) i.natAbs 1).1

/-- `std::abs(x)`. -/
def abs : F32 → F32
  | .nan => .nan
  | .inf _ => .inf false
  | .fin _ m e => .fin false m e

/-- The signed integer `(-1)^neg * m`. -/
def signed (neg : Bool) (m : Nat) : Int := if neg then -(m : Int) else (m : Int)

/-- The float difference `a - b`. -/
def sub : F32 → F32 → F32
  | .nan, _ => .nan
  | _, .nan => .nan
  | .inf s, .inf t => if s = t then .nan else .inf s
  | .inf s, .fin _ _ _ => .inf s
  | .fin _ _ _, .inf t => .inf (!t)
  | .fin s m e, .fin t n f =>
    let x := min e f
    let d : Int := signed s (m * 2 ^ (e - x).toNat) - signed t (n * 2 ^ (f - x).toNat)
    if d = 0 then .fin (decide (m = 0) && decide (n = 0) && s && !t) 0 (-149)
    else roundScaled (decide (d < 0)) d.natAbs x

/-- The float product `a * b`. -/
def mul : F32 → F32 → F32
  | .nan, _ => .nan
  | _, .nan => .nan
  | .inf s, .inf t => .inf (s != t)
  | .inf s, .fin t n _ => if n = 0 then .nan else .inf (s != t)
  | .fin s m _, .inf t => if m = 0 then .nan else .inf (s != t)
  | .fin s m e, .fin t n f => roundScaled (s != t) (m * n) (e + f)

/-- The float quotient `a / b`. -/
def div : F32 → F32 → F32
  | .nan, _ => .nan
  | _, .nan => .nan
  | .inf _, .inf _ => .nan
  | .inf s, .fin t _ _ => .inf (s != t)
  | .fin s _ _, .inf t => .fin (s != t) 0 (-149)
  | .fin s m e, .fin t n f =>
    if n = 0 then (if m = 0 then .nan else .inf (s != t))
    else
      match e - f with
      | Int.ofNat k => (roundRat (s != t) (m * 2 ^ k) n).1
      | Int.negSucc k => (roundRat (s != t) m (n * 2 ^ (k + 1))).1

/-- The magnitude `m * 2^e` with its fractional part discarded. -/
def truncMag (m : Nat) (e : Int) : Nat :=
  match e with
  | Int.ofNat k => m * 2 ^ k
  | Int.negSucc k => m / 2 ^ (k + 1)

/-- The conversion `uint32(x)`: the fractional part is discarded; `none` when the
truncated value is not a `uint32` (the behaviour is then undefined). -/
def toUInt32 : F32 → Option Nat
  | .nan => none
  | .inf _ => none
  | .fin neg m e =>
    if neg && decide (truncMag m e ≠ 0) then none
    else if truncMag m e < 2 ^ 32 then some (truncMag m e)
    else none

/-- The conversion `int32(x)`: the fractional part is discarded; `none` when the
truncated value is not an `int32` (the behaviour is then undefined). -/
def toInt32 : F32 → Option Int
  | .nan => none
  | .inf _ => none
  | .fin neg m e =>
    if -(2 ^ 31 : Int) ≤ signed neg (truncMag m e) ∧ signed neg (truncMag m e) < (2 ^ 31 : Int) then
      some (signed neg (truncMag m e))
    else none

/-- The mathematical `floor` that the specification's spell-damage formula names: the
greatest integer not above `x`; `none` when `x` is not finite. It is compared with
`toInt32`, the conversion the source applies. -/
def specFloor : F32 → Option Int
  | .nan => none
  | .inf _ => none
  | .fin neg m e =>
    match e with
    | Int.ofNat k => some (signed neg (m * 2 ^ k))
    | Int.negSucc k =>
      if neg && decide (m % 2 ^ (k + 1) ≠ 0) then some (-((m / 2 ^ (k + 1) : Nat) : Int) - 1)
      else some (signed neg (m / 2 ^ (k + 1)))

end F32

/-- An optional exponent part (`marker`, optional sign, at least one digit) at the head
of `s`; `0` when there is none. -/
def takeExponent (marker : Char) (s : List Char) : Int :=
  match s with
  | [] => 0
  | c :: cs =>
    if lowerChar c = marker then
      let sg := takeSign cs
      let ds := (takeDigits digitVal sg.2).1
      if ds.isEmpty then 0
      else if sg.1 then -(digitsToNat 10 ds : Int) else (digitsToNat 10 ds : Int)
    else 0

/-- Digits, an optional `.` and more digits at the head of `s`: all digit values read,
how many of them stand after the point, and the characters after the mantissa. -/
def takeMantissa (val : Char → Option Nat) (s : List Char) : List Nat × Nat × List Char :=
  let ip := takeDigits val s
  match ip.2 with
  | '.' :: cs =>
    let fp := takeDigits val cs
    (ip.1 ++ fp.1, fp.1.length, fp.2)
  | rest => (ip.1, 0, rest)

/-- Whether `strtof` sets `errno` to `ERANGE` for the exact value `num / den` (with
`den > 0`) read from a hexadecimal (`hex`) or a decimal float, as the GNU C library does
in `round_and_return` of `strtod_l.c` where tininess is detected after rounding.
Overflow: the rounded value is infinite. Underflow: the value is below `2^-126`, with
`k` the exponent of its leading bit; it is cut to the 24 bits `m24` from the leading bit
on, `half` being the next bit and `more` whether a later bit is set. Below `2^-150` the
range error is always reported. A value that rounds up to `2^-126` at 24 bits of
precision does not count as tiny. Otherwise the range error is reported when one of the
low `-126 - k` bits of `m24` is set or `more` holds; the bit `half` itself is not looked
at. A decimal float is read to 151 decimal places only, what follows counting as `more`:
its bit `half` lies beyond them unless `k = -127`, so there it is reported as well. -/
def strtofRange (hex : Bool) (num den : Nat) : Bool :=
  if num = 0 then false
  else
    let k0 : Int := (F32.ilog2 num : Int) - (F32.ilog2 den : Int)
    let k : Int := if F32.geTwoPow num den k0 then k0 else k0 - 1
    if -126 ≤ k then
      match (F32.roundRat false num den).1 with
      | .inf _ => true
      | _ => false
    else if k < -150 then true
    else
      let shift : Nat := (-126 - k).toNat
      let n : Nat := num * 2 ^ (23 - k).toNat
      let m24 := n / den
      let r := n % den
      let half : Bool := decide (den ≤ 2 * r)
      let more : Bool := decide (r ≠ 0) && decide (2 * r ≠ den)
      if decide (shift = 1) && decide (m24 = 2 ^ 24 - 1) && half then false
      else decide (m24 % 2 ^ shift ≠ 0) || more || (!hex && decide (shift ≠ 1) && half)

/-- The number `mant * base^x` rounded to `float`, and whether `strtof` reports a range
error for it (`hex` for base 2, a hexadecimal float). The first three cases give the
answer without forming a large power: zero, a value of at least `2^128`, a value below
`2^-150`. -/
def scaleRound (neg : Bool) (hex : Bool) (mant base : Nat) (x : Int) : F32 × Bool :=
  if mant = 0 then (.fin neg 0 (-149), false)
  else
    match x with
    | Int.ofNat k =>
      if 128 ≤ k then (.inf neg, true)
      else
        ((F32.roundRat neg (mant * base ^ k) 1).1, strtofRange hex (mant * base ^ k) 1)
    | Int.negSucc k =>
      if F32.ilog2 mant + 150 ≤ k then (.fin neg 0 (-149), true)
      else
        ((F32.roundRat neg mant (base ^ (k + 1))).1, strtofRange hex mant (base ^ (k + 1)))

/-- `strtof` on the text after white space and sign: the value and the `ERANGE`
condition, or `none` when no conversion can be performed. Accepted are `inf`,
`infinity` and `nan` (any case), hexadecimal floats and decimal floats. -/
def strtofBody (neg : Bool) (s : List Char) : Option (F32 × Bool) :=
  let low := s.map lowerChar
  if low.take 3 = ['i', 'n', 'f'] then some (.inf neg, false)
  else if low.take 3 = ['n', 'a', 'n'] then some (.nan, false)
  else
    let hex := takeMantissa hexVal (s.drop 2)
    if low.take 2 = ['0', 'x'] && !hex.1.isEmpty then
      some (scaleRound neg true (digitsToNat 16 hex.1) 2
        (takeExponent 'p' hex.2.2 - 4 * (hex.2.1 : Int)))
    else
      let dec := takeMantissa digitVal s
      if dec.1.isEmpty then none
      else
        some (scaleRound neg false (digitsToNat 10 dec.1) 10
          (takeExponent 'e' dec.2.2 - (dec.2.1 : Int)))

/-- `std::stof(str)` (no position output): `strtof` on the text, what follows the
converted part is ignored. `none` stands for a thrown exception:
`std::invalid_argument` when nothing can be converted, `std::out_of_range` when
`strtof` reports `ERANGE`. -/
def stof (str : List Char) : Option F32 :=
  let s := takeSign (str.dropWhile isSpace)
  match strtofBody s.1 s.2 with
  | none => none
  | some (v, erange) => if erange then none else some v

/-! ## Override-string reader -/

/-- The chunks that successive `std::getline(ss, chunk, delim)` calls deliver until the
stream fails: the text between delimiters; no chunk is delivered for the empty text
left after a final delimiter. -/
def getlines (delim : Char) : List Char → List (List Char)
  | [] => []
  | c :: cs =>
    if c = delim then [] :: getlines delim cs
    else
      match getlines delim cs with
      | [] => [[c]]
      | chunk :: rest => (c :: chunk) :: rest

/-- One `line >> str` on a `std::stringstream` holding `line`: leading white space is
skipped and characters are taken up to the next white space or the end. Returns the
string read (empty when the extraction fails) and the text left in the stream. -/
def extract (line : List Char) : List Char × List Char :=
  let s := line.dropWhile isSpace
  (s.takeWhile (fun c => !isSpace c), s.dropWhile (fun c => !isSpace c))

/-- The three conversions of the `try` block, `cstoul` standing for `std::stoul` and
`cstof` for `std::stof`; `none` when one of them throws. -/
def convert (cstoul : List Char → Option Nat) (cstof : List Char → Option F32)
    (idStr hpStr dmgStr : List Char) : Option (Nat × F32 × F32) :=
  match cstoul idStr with
  | none => none
  | some n =>
    let id := n % 2 ^ 32
    match cstof hpStr with
    | none => none
    | some hp =>
      match (if dmgStr.isEmpty then some hp else cstof dmgStr) with
      | none => none
      | some dmg => some (id, hp, dmg)

/-- The statement `line >> idStr >> hpStr >> dmgStr` on a stream holding `chunk`: the
three strings read; a string whose extraction fails stays empty. -/
def readTokens (chunk : List Char) : List Char × List Char × List Char :=
  let r1 := extract chunk
  let r2 := extract r1.2
  let r3 := extract r2.2
  (r1.1, r2.1, r3.1)

/-- Body of the `while` loop of `ParseOverrideString` on one chunk, over the two library
conversions; each `continue` leaves `overrides` as it is. -/
def parseChunk (cstoul : List Char → Option Nat) (cstof : List Char → Option F32)
    (overrides : UMap) (chunk : List Char) : UMap :=
  let idStr := (readTokens chunk).1
  let hpStr := (readTokens chunk).2.1
  let dmgStr := (readTokens chunk).2.2
  if idStr.isEmpty || hpStr.isEmpty then overrides
  else
    match convert cstoul cstof idStr hpStr dmgStr with
    | none => overrides
    | some (id, hp, dmg) =>
      if F32.le hp F32.zero || F32.le dmg F32.zero then overrides
      else overrides.set id (hp, dmg)

/-- The function `ParseOverrideString` over the two library conversions it calls. -/
def ParseOverrideStringWith (cstoul : List Char → Option Nat)
    (cstof : List Char → Option F32) (input : List Char) : UMap :=
  (getlines ',' input).foldl (parseChunk cstoul cstof) []

/-- `ParseOverrideString(input)`, with `std::stoul` and `std::stof`. -/
def ParseOverrideString (input : List Char) : UMap :=
  ParseOverrideStringWith stoul stof input

/-! ## Configuration load -/

/-- What the module reads from the engine's `sConfigMgr`: for each option name the
value found in the configuration source, if there is one. -/
structure ConfigMgr where
  boolOption : String → Option Bool
  floatOption : String → Option F32
  stringOption : String → Option (List Char)

/-- `sConfigMgr->GetOption<bool>(name, def)`. -/
def ConfigMgr.GetOptionBool (sConfigMgr : ConfigMgr) (name : String) (dflt : Bool) : Bool :=
  (sConfigMgr.boolOption name).getD dflt

/-- `sConfigMgr->GetOption<float>(name, def)`. -/
def ConfigMgr.GetOptionFloat (sConfigMgr : ConfigMgr) (name : String) (dflt : F32) : F32 :=
  (sConfigMgr.floatOption name).getD dflt

/-- `sConfigMgr->GetOption<std::string>(name, def, false)`. -/
def ConfigMgr.GetOptionString (sConfigMgr : ConfigMgr) (name : String)
    (dflt : List Char) : List Char :=
  (sConfigMgr.stringOption name).getD dflt

/-- `OutdoorScaling_WorldScript::OnBeforeConfigLoad`: the configuration after the load;
every member of `gConfig` is assigned. -/
def OnBeforeConfigLoad (sConfigMgr : ConfigMgr) (gConfig : OutdoorScalingConfig) :
    OutdoorScalingConfig :=
  { gConfig with
    enabled := sConfigMgr.GetOptionBool "OutdoorScaling.Enable" true
    continentHealth :=
      ⟨sConfigMgr.GetOptionFloat "OutdoorScaling.Continent.0.Health" F32.one,
       sConfigMgr.GetOptionFloat "OutdoorScaling.Continent.1.Health" F32.one,
       sConfigMgr.GetOptionFloat "OutdoorScaling.Continent.2.Health" F32.one⟩
    continentDamage :=
      ⟨sConfigMgr.GetOptionFloat "OutdoorScaling.Continent.0.Damage" F32.one,
       sConfigMgr.GetOptionFloat "OutdoorScaling.Continent.1.Damage" F32.one,
       sConfigMgr.GetOptionFloat "OutdoorScaling.Continent.2.Damage" F32.one⟩
    zoneOverrides :=
      ParseOverrideString (sConfigMgr.GetOptionString "OutdoorScaling.ZoneOverrides" [])
    creatureOverrides :=
      ParseOverrideString (sConfigMgr.GetOptionString "OutdoorScaling.CreatureOverrides" []) }

/-! ## Stat application -/

/-- `OutdoorScalingInfo`, the record cached in a creature's `CustomData`, with the
defaults of its member initialisers. -/
structure OutdoorScalingInfo where
  healthMult : F32 := F32.one
  damageMult : F32 := F32.one
  zoneId : Nat := 0
  expansion : Nat := 0
  source : Source := Source.None
  deriving DecidableEq, Repr

/-- The engine's `WeaponAttackType`, as far as the module names it. -/
inductive WeaponAttackType where
  | BASE_ATTACK
  | OFF_ATTACK
  | RANGED_ATTACK
  deriving DecidableEq, Repr

/-- The engine's `WeaponDamageRange`. -/
inductive WeaponDamageRange where
  | MINDAMAGE
  | MAXDAMAGE
  deriving DecidableEq, Repr

/-- The rank of a creature template, as far as the module names it. -/
inductive CreatureEliteType where
  | CREATURE_ELITE_NORMAL
  | CREATURE_ELITE_ELITE
  | CREATURE_ELITE_RAREELITE
  | CREATURE_ELITE_WORLDBOSS
  | CREATURE_ELITE_RARE
  | other
  deriving DecidableEq, Repr

/-- The engine's rate identifiers that the module reads. -/
inductive Rates where
  | RATE_CREATURE_NORMAL_HP
  | RATE_CREATURE_ELITE_ELITE_HP
  | RATE_CREATURE_ELITE_RAREELITE_HP
  | RATE_CREATURE_ELITE_WORLDBOSS_HP
  | RATE_CREATURE_ELITE_RARE_HP
  | RATE_CREATURE_NORMAL_DAMAGE
  | RATE_CREATURE_ELITE_ELITE_DAMAGE
  | RATE_CREATURE_ELITE_RAREELITE_DAMAGE
  | RATE_CREATURE_ELITE_WORLDBOSS_DAMAGE
  | RATE_CREATURE_ELITE_RARE_DAMAGE
  | RATE_CREATURE_NORMAL_SPELLDAMAGE
  | RATE_CREATURE_ELITE_ELITE_SPELLDAMAGE
  | RATE_CREATURE_ELITE_RAREELITE_SPELLDAMAGE
  | RATE_CREATURE_ELITE_WORLDBOSS_SPELLDAMAGE
  | RATE_CREATURE_ELITE_RARE_SPELLDAMAGE
  deriving DecidableEq, Repr

/-- What the module reads from the engine's `sWorld`: `getRate`. -/
structure World where
  getRate : Rates → F32

/-- What the module reads and writes of the engine's `Creature`. Each engine setter is
taken to store its argument in the member it names, and each getter to return that
member: `GetMap`, `GetZoneId`, `GetEntry`, `IsPet`, `IsGuardian`,
`GetCreatureTemplate()->rank`, create-health, max-health, health, the `BASE_VALUE` flat
modifier of `UNIT_MOD_HEALTH`, the six weapon damage values and the `OutdoorScalingInfo`
slot of `CustomData`. -/
structure Creature where
  map : Option Map
  zoneId : Nat
  entry : Nat
  isPet : Bool
  isGuardian : Bool
  rank : CreatureEliteType
  createHealth : Nat
  maxHealth : Nat
  health : Nat
  healthBaseValue : F32
  baseMin : F32
  baseMax : F32
  offMin : F32
  offMax : F32
  rngMin : F32
  rngMax : F32
  info : OutdoorScalingInfo
  deriving DecidableEq, Repr

/-- `creature->GetWeaponDamageRange(attType, type)`. -/
def Creature.GetWeaponDamageRange (creature : Creature) :
    WeaponAttackType → WeaponDamageRange → F32
  | .BASE_ATTACK, .MINDAMAGE => creature.baseMin
  | .BASE_ATTACK, .MAXDAMAGE => creature.baseMax
  | .OFF_ATTACK, .MINDAMAGE => creature.offMin
  | .OFF_ATTACK, .MAXDAMAGE => creature.offMax
  | .RANGED_ATTACK, .MINDAMAGE => creature.rngMin
  | .RANGED_ATTACK, .MAXDAMAGE => creature.rngMax

/-- `creature->SetBaseWeaponDamage(attType, damageRange, value)`. -/
def Creature.SetBaseWeaponDamage (creature : Creature) :
    WeaponAttackType → WeaponDamageRange → F32 → Creature
  | .BASE_ATTACK, .MINDAMAGE, value => { creature with baseMin := value }
  | .BASE_ATTACK, .MAXDAMAGE, value => { creature with baseMax := value }
  | .OFF_ATTACK, .MINDAMAGE, value => { creature with offMin := value }
  | .OFF_ATTACK, .MAXDAMAGE, value => { creature with offMax := value }
  | .RANGED_ATTACK, .MINDAMAGE, value => { creature with rngMin := value }
  | .RANGED_ATTACK, .MAXDAMAGE, value => { creature with rngMax := value }

/-- What the module reads of the engine's `Unit`: `ToCreature()`; `IsCreature()` is
whether there is one. -/
structure Unit where
  creature : Option Creature
  deriving DecidableEq, Repr

/-- `GetWorldHealthRate(Creature const* creature)`. -/
def GetWorldHealthRate (sWorld : World) (creature : Option Creature) : F32 :=
  match creature with
  | none => F32.one
  | some c =>
    match c.rank with
    | .CREATURE_ELITE_NORMAL => sWorld.getRate .RATE_CREATURE_NORMAL_HP
    | .CREATURE_ELITE_ELITE => sWorld.getRate .RATE_CREATURE_ELITE_ELITE_HP
    | .CREATURE_ELITE_RAREELITE => sWorld.getRate .RATE_CREATURE_ELITE_RAREELITE_HP
    | .CREATURE_ELITE_WORLDBOSS => sWorld.getRate .RATE_CREATURE_ELITE_WORLDBOSS_HP
    | .CREATURE_ELITE_RARE => sWorld.getRate .RATE_CREATURE_ELITE_RARE_HP
    | .other => sWorld.getRate .RATE_CREATURE_ELITE_ELITE_HP

/-- `GetWorldDamageRate(Creature const* creature)`. -/
def GetWorldDamageRate (sWorld : World) (creature : Option Creature) : F32 :=
  match creature with
  | none => F32.one
  | some c =>
    match c.rank with
    | .CREATURE_ELITE_NORMAL => sWorld.getRate .RATE_CREATURE_NORMAL_DAMAGE
    | .CREATURE_ELITE_ELITE => sWorld.getRate .RATE_CREATURE_ELITE_ELITE_DAMAGE
    | .CREATURE_ELITE_RAREELITE => sWorld.getRate .RATE_CREATURE_ELITE_RAREELITE_DAMAGE
    | .CREATURE_ELITE_WORLDBOSS => sWorld.getRate .RATE_CREATURE_ELITE_WORLDBOSS_DAMAGE
    | .CREATURE_ELITE_RARE => sWorld.getRate .RATE_CREATURE_ELITE_RARE_DAMAGE
    | .other => sWorld.getRate .RATE_CREATURE_ELITE_ELITE_DAMAGE

/-- `GetWorldSpellDamageRate(Creature const* creature)`. -/
def GetWorldSpellDamageRate (sWorld : World) (creature : Option Creature) : F32 :=
  match creature with
  | none => F32.one
  | some c =>
    match c.rank with
    | .CREATURE_ELITE_NORMAL => sWorld.getRate .RATE_CREATURE_NORMAL_SPELLDAMAGE
    | .CREATURE_ELITE_ELITE => sWorld.getRate .RATE_CREATURE_ELITE_ELITE_SPELLDAMAGE
    | .CREATURE_ELITE_RAREELITE => sWorld.getRate .RATE_CREATURE_ELITE_RAREELITE_SPELLDAMAGE
    | .CREATURE_ELITE_WORLDBOSS => sWorld.getRate .RATE_CREATURE_ELITE_WORLDBOSS_SPELLDAMAGE
    | .CREATURE_ELITE_RARE => sWorld.getRate .RATE_CREATURE_ELITE_RARE_SPELLDAMAGE
    | .other => sWorld.getRate .RATE_CREATURE_ELITE_ELITE_SPELLDAMAGE

/-- `OutdoorScaling_AllCreatureScript::ApplyDamageScale(creature, mult)`. -/
def ApplyDamageScale (sWorld : World) (creature : Creature) (mult : F32) : Creature :=
  if F32.lt (F32.abs (F32.sub mult F32.one)) F32.epsilon then creature
  else
    let worldDamageRate := GetWorldDamageRate sWorld (some creature)
    let worldDamageRate :=
      if F32.le worldDamageRate F32.zero then F32.one else worldDamageRate
    let baseMin := creature.GetWeaponDamageRange .BASE_ATTACK .MINDAMAGE
    let baseMax := creature.GetWeaponDamageRange .BASE_ATTACK .MAXDAMAGE
    let offMin := creature.GetWeaponDamageRange .OFF_ATTACK .MINDAMAGE
    let offMax := creature.GetWeaponDamageRange .OFF_ATTACK .MAXDAMAGE
    let rngMin := creature.GetWeaponDamageRange .RANGED_ATTACK .MINDAMAGE
    let rngMax := creature.GetWeaponDamageRange .RANGED_ATTACK .MAXDAMAGE
    let baseMinNorm := F32.div baseMin worldDamageRate
    let baseMaxNorm := F32.div baseMax worldDamageRate
    let offMinNorm := F32.div offMin worldDamageRate
    let offMaxNorm := F32.div offMax worldDamageRate
    let rngMinNorm := F32.div rngMin worldDamageRate
    let rngMaxNorm := F32.div rngMax worldDamageRate
    let creature := creature.SetBaseWeaponDamage .BASE_ATTACK .MINDAMAGE (F32.mul baseMinNorm mult)
    let creature := creature.SetBaseWeaponDamage .BASE_ATTACK .MAXDAMAGE (F32.mul baseMaxNorm mult)
    let creature := creature.SetBaseWeaponDamage .OFF_ATTACK .MINDAMAGE (F32.mul offMinNorm mult)
    let creature := creature.SetBaseWeaponDamage .OFF_ATTACK .MAXDAMAGE (F32.mul offMaxNorm mult)
    let creature := creature.SetBaseWeaponDamage .RANGED_ATTACK .MINDAMAGE (F32.mul rngMinNorm mult)
    creature.SetBaseWeaponDamage .RANGED_ATTACK .MAXDAMAGE (F32.mul rngMaxNorm mult)

/-- The assignments `info->... = scaling....` that both hooks make. -/
def storeInfo (creature : Creature) (scaling : ScalingResult) : Creature :=
  { creature with
    info :=
      { creature.info with
        healthMult := scaling.healthMult
        damageMult := scaling.damageMult
        zoneId := scaling.zoneId
        expansion := scaling.expansion
        source := scaling.source } }

/-- `OutdoorScaling_AllCreatureScript::OnCreatureSelectLevel(cinfo, creature)`: the
creature after the call (`none` inside for a null pointer). The outer `none` stands for
undefined behaviour: a subscript outside a continent table, or a `uint32` conversion of
a value that is no `uint32`. -/
def OnCreatureSelectLevel (gConfig : OutdoorScalingConfig) (sWorld : World)
    (creature : Option Creature) : Option (Option Creature) :=
  match creature with
  | none => some none
  | some creature =>
    match ComputeScaling gConfig creature.map creature.zoneId creature.entry
        (creature.isPet || creature.isGuardian) with
    | none => none
    | some scaling =>
      let creature := storeInfo creature scaling
      if scaling.source ≠ Source.Continent ∧ scaling.source ≠ Source.ZoneOverride ∧
          scaling.source ≠ Source.CreatureOverride then
        some (some creature)
      else
        let worldHealthRate := GetWorldHealthRate sWorld (some creature)
        let worldHealthRate :=
          if F32.le worldHealthRate F32.zero then F32.one else worldHealthRate
        if F32.le F32.epsilon (F32.abs (F32.sub scaling.healthMult F32.one)) then
          let baseHealth := F32.div (F32.ofUInt32 creature.maxHealth) worldHealthRate
          match F32.toUInt32 (F32.mul baseHealth scaling.healthMult) with
          | none => none
          | some newMaxHealth =>
            let newMaxHealth := if newMaxHealth = 0 then 1 else newMaxHealth
            let creature :=
              { creature with
                createHealth := newMaxHealth
                maxHealth := newMaxHealth
                health := newMaxHealth
                healthBaseValue := F32.ofUInt32 newMaxHealth }
            some (some (ApplyDamageScale sWorld creature scaling.damageMult))
        else
          some (some (ApplyDamageScale sWorld creature scaling.damageMult))

/-- `OutdoorScaling_UnitScript::ModifySpellDamageTaken(target, attacker, damage,
spellInfo)`: the attacker and the damage after the call. `none` stands for undefined
behaviour: a subscript outside a continent table, or an `int32` conversion of a value
that is no `int32`. -/
def ModifySpellDamageTaken (gConfig : OutdoorScalingConfig) (sWorld : World)
    (attacker : Option Unit) (damage : Int) : Option (Option Unit × Int) :=
  match attacker with
  | none => some (none, damage)
  | some unit =>
    if damage = 0 then some (some unit, damage)
    else
      match unit.creature with
      | none => some (some unit, damage)
      | some creature =>
        match ComputeScaling gConfig creature.map creature.zoneId creature.entry
            (creature.isPet || creature.isGuardian) with
        | none => none
        | some scaling =>
          let creature := storeInfo creature scaling
          if scaling.source ≠ Source.Continent ∧ scaling.source ≠ Source.ZoneOverride ∧
              scaling.source ≠ Source.CreatureOverride then
            some (some { unit with creature := some creature }, damage)
          else if F32.lt (F32.abs (F32.sub scaling.damageMult F32.one)) F32.epsilon then
            some (some { unit with creature := some creature }, damage)
          else
            let worldSpellRate := GetWorldSpellDamageRate sWorld (some creature)
            let worldSpellRate :=
              if F32.le worldSpellRate F32.zero then F32.one else worldSpellRate
            match F32.toInt32
                (F32.mul (F32.div (F32.ofInt32 damage) worldSpellRate) scaling.damageMult) with
            | none => none
            | some damage =>
              let damage :=
                if damage = 0 then (if F32.lt F32.zero scaling.damageMult then 1 else 0)
                else damage
              some (some { unit with creature := some creature }, damage)

/-! ## Inspection commands -/

/-- `SourceToString(source)`. -/
def SourceToString (source : Source) : String :=
  match source with
  | Source.Continent => "Continent default"
  | Source.ZoneOverride => "Zone override"
  | Source.CreatureOverride => "Creature override"
  | Source.Disabled => "Module disabled"
  | Source.NotOutdoor => "Not outdoor continent"
  | Source.PetOrGuardian => "Pet/guardian excluded"
  | Source.None => "Not scaled"

/-- The lines that the two command handlers send, each with the values it formats. -/
inductive Message where
  | separator
  | mapLine (mapName : List Char) (mapId zoneId : Nat)
  | creatureLine (creatureName : List Char) (entry zoneId mapId : Nat)
  | disabled
  | notActiveOnMap
  | notActiveInInstances
  | selectCreature
  | continentBase (expansion : Nat) (health damage : F32)
  | zoneOverride (health damage : F32)
  | zoneOverrideNone
  | creatureOverride (health damage : F32)
  | creatureOverrideNone
  | active (health damage : F32) (source : String)
  deriving DecidableEq, Repr

/-- What makes a run of a command handler undefined: a continent table subscripted
outside its three slots, or a null `Map` pointer dereferenced. -/
inductive Fault where
  | subscript
  | nullMap
  deriving DecidableEq, Repr

/-- What a command handler leaves: the lines sent, whether `SetSentErrorMessage(true)` was
called, the value returned, and the selected creature after the call. -/
structure CommandResult where
  messages : List Message
  sentErrorMessage : Bool
  result : Bool
  creature : Option Creature
  deriving DecidableEq, Repr

/-- The line about the zone override that both handlers send. -/
def zoneOverrideLine (gConfig : OutdoorScalingConfig) (zoneId : Nat) : Message :=
  match gConfig.zoneOverrides.find zoneId with
  | some zoneIt => Message.zoneOverride zoneIt.1 zoneIt.2
  | none => Message.zoneOverrideNone

/-- `OutdoorScaling_CommandScript::HandleOSMapStat`, for a player on the map `map` (with
`GetMapName()` and `GetId()` given) in zone `zoneId`. -/
def HandleOSMapStat (gConfig : OutdoorScalingConfig) (map : Map) (mapName : List Char)
    (mapId zoneId : Nat) : Except Fault CommandResult :=
  match ComputeScaling gConfig (some map) zoneId 0 false with
  | none => Except.error Fault.subscript
  | some scaling =>
    let head := [Message.separator, Message.mapLine mapName mapId zoneId]
    if scaling.source = Source.Disabled then
      Except.ok ⟨head ++ [Message.disabled], false, true, none⟩
    else if scaling.source = Source.NotOutdoor then
      Except.ok ⟨head ++ [Message.notActiveOnMap], false, true, none⟩
    else
      match gConfig.continentHealth.get? scaling.expansion,
            gConfig.continentDamage.get? scaling.expansion with
      | some h, some d =>
        Except.ok
          ⟨head ++
            [Message.continentBase scaling.expansion h d,
             zoneOverrideLine gConfig zoneId,
             Message.active scaling.healthMult scaling.damageMult
               (SourceToString scaling.source)],
           false, true, none⟩
      | _, _ => Except.error Fault.subscript

/-- `OutdoorScaling_CommandScript::HandleOSCreatureStat`, for the selected creature
`creature` (null when none is selected; `GetName()` and the map's `GetId()` given). -/
def HandleOSCreatureStat (gConfig : OutdoorScalingConfig) (creature : Option Creature)
    (creatureName : List Char) (mapId : Nat) : Except Fault CommandResult :=
  match creature with
  | none => Except.ok ⟨[Message.selectCreature], true, false, none⟩
  | some creature =>
    match creature.map with
    | none => Except.error Fault.nullMap
    | some map =>
      if map.instanceable then
        Except.ok ⟨[Message.notActiveInInstances], true, false, some creature⟩
      else
        match ComputeScaling gConfig (some map) creature.zoneId creature.entry
            (creature.isPet || creature.isGuardian) with
        | none => Except.error Fault.subscript
        | some scaling =>
          let creature := storeInfo creature scaling
          match gConfig.continentHealth.get? scaling.expansion,
                gConfig.continentDamage.get? scaling.expansion with
          | some h, some d =>
            Except.ok
              ⟨[Message.separator,
                Message.creatureLine creatureName creature.entry creature.zoneId mapId,
                Message.continentBase scaling.expansion h d,
                zoneOverrideLine gConfig creature.zoneId,
                (match gConfig.creatureOverrides.find creature.entry with
                 | some creatureIt => Message.creatureOverride creatureIt.1 creatureIt.2
                 | none => Message.creatureOverrideNone),
                Message.active creature.info.healthMult creature.info.damageMult
                  (SourceToString creature.info.source)],
               false, true, some creature⟩
          | _, _ => Except.error Fault.subscript

/-! ## The resolver's decision order -/

/-- A map that is instanced, has no entry, or is not of continent type is no outdoor
continent. -/
theorem IsOutdoorContinent_eq_false (m : Map)
    (hm : m.instanceable = true ∨
      ∀ entry, m.entry = some entry → entry.isContinent = false) :
    IsOutdoorContinent (some m) = false := by
  obtain ⟨entry, inst⟩ := m
  cases entry with
  | none => rfl
  | some entry =>
    rcases hm with h | h
    · simp only at h
      simp [IsOutdoorContinent, h]
    · have h2 := h entry rfl
      simp [IsOutdoorContinent, h2]

/-- C1. Creature override has top priority: with the module enabled, on a non-instanced
continent map and for a creature that is no pet or guardian, an entry for the creature's
template id in `creatureOverrides` makes `ComputeScaling` answer `CreatureOverride` with
that entry's pair of multipliers, whatever `zoneOverrides` holds for the zone. -/
theorem C1_creature_override_first (gConfig : OutdoorScalingConfig) (m : Map)
    (entry : MapEntry) (zoneId creatureEntry : Nat) (p : F32 × F32)
    (hen : gConfig.enabled = true) (hentry : m.entry = some entry)
    (hinst : m.instanceable = false) (hcont : entry.isContinent = true)
    (hfind : gConfig.creatureOverrides.find creatureEntry = some p) :
    ComputeScaling gConfig (some m) zoneId creatureEntry false =
      some { healthMult := p.1, damageMult := p.2, source := Source.CreatureOverride,
             zoneId := zoneId, expansion := ClampExpansion entry.expansion } := by
  simp [ComputeScaling, IsOutdoorContinent, hen, hentry, hinst, hcont, hfind]

/-- C1, at a concrete configuration in which the zone has an override too. -/
theorem C1_creature_override_first_witness :
    ComputeScaling
        { zoneOverrides := [(12, (F32.fin false 8388608 (-22), F32.one))],
          creatureOverrides := [(299, (F32.fin false 12582912 (-23), F32.fin false 8388608 (-22)))] }
        (some ⟨some ⟨true, 1⟩, false⟩) 12 299 false =
      some { healthMult := F32.fin false 12582912 (-23),
             damageMult := F32.fin false 8388608 (-22),
             source := Source.CreatureOverride, zoneId := 12, expansion := 1 } :=
  C1_creature_override_first _ ⟨some ⟨true, 1⟩, false⟩ ⟨true, 1⟩ 12 299
    (F32.fin false 12582912 (-23), F32.fin false 8388608 (-22)) rfl rfl rfl rfl (by decide)

/-- C2. Zone override is second: with the module enabled, on a non-instanced continent
map and for a creature that is no pet or guardian, when `creatureOverrides` has no entry
for the creature and `zoneOverrides` has one for the zone, `ComputeScaling` answers
`ZoneOverride` with the zone entry's pair of multipliers. -/
theorem C2_zone_override_second (gConfig : OutdoorScalingConfig) (m : Map)
    (entry : MapEntry) (zoneId creatureEntry : Nat) (p : F32 × F32)
    (hen : gConfig.enabled = true) (hentry : m.entry = some entry)
    (hinst : m.instanceable = false) (hcont : entry.isContinent = true)
    (hcre : gConfig.creatureOverrides.find creatureEntry = none)
    (hzone : gConfig.zoneOverrides.find zoneId = some p) :
    ComputeScaling gConfig (some m) zoneId creatureEntry false =
      some { healthMult := p.1, damageMult := p.2, source := Source.ZoneOverride,
             zoneId := zoneId, expansion := ClampExpansion entry.expansion } := by
  simp [ComputeScaling, IsOutdoorContinent, hen, hentry, hinst, hcont, hcre, hzone]

/-- C2, at a concrete configuration whose creature table holds another creature. -/
theorem C2_zone_override_second_witness :
    ComputeScaling
        { zoneOverrides := [(12, (F32.fin false 8388608 (-22), F32.one))],
          creatureOverrides := [(299, (F32.fin false 12582912 (-23), F32.one))] }
        (some ⟨some ⟨true, 0⟩, false⟩) 12 300 false =
      some { healthMult := F32.fin false 8388608 (-22), damageMult := F32.one,
             source := Source.ZoneOverride, zoneId := 12, expansion := 0 } :=
  C2_zone_override_second _ ⟨some ⟨true, 0⟩, false⟩ ⟨true, 0⟩ 12 300
    (F32.fin false 8388608 (-22), F32.one) rfl rfl rfl rfl (by decide) (by decide)

/-- C3. Continent fallback: with the module enabled, on a non-instanced continent map
and for a creature that is no pet or guardian, when neither table has a matching entry,
`ComputeScaling` answers `Continent` with the multipliers `continentHealth[t]` and
`continentDamage[t]`, `t` being the map's expansion clamped to `0..2`; both subscripts
are inside the tables. -/
theorem C3_continent_fallback (gConfig : OutdoorScalingConfig) (m : Map)
    (entry : MapEntry) (zoneId creatureEntry : Nat)
    (hen : gConfig.enabled = true) (hentry : m.entry = some entry)
    (hinst : m.instanceable = false) (hcont : entry.isContinent = true)
    (hcre : gConfig.creatureOverrides.find creatureEntry = none)
    (hzone : gConfig.zoneOverrides.find zoneId = none) :
    ∃ h d, gConfig.continentHealth.get? (ClampExpansion entry.expansion) = some h ∧
      gConfig.continentDamage.get? (ClampExpansion entry.expansion) = some d ∧
      ClampExpansion entry.expansion ≤ 2 ∧
      ComputeScaling gConfig (some m) zoneId creatureEntry false =
        some { healthMult := h, damageMult := d, source := Source.Continent,
               zoneId := zoneId, expansion := ClampExpansion entry.expansion } := by
  have ht : ClampExpansion entry.expansion = 0 ∨ ClampExpansion entry.expansion = 1 ∨
      ClampExpansion entry.expansion = 2 := by
    unfold ClampExpansion
    split <;> omega
  rcases ht with ht | ht | ht <;>
    simp [ComputeScaling, IsOutdoorContinent, hen, hentry, hinst, hcont, hcre, hzone, ht,
      Array3.get?]

/-- C3, at a concrete configuration: a map of expansion 7 reads slot 2 of both tables. -/
theorem C3_continent_fallback_witness :
    ∃ h d,
      (⟨F32.one, F32.one, F32.fin false 12582912 (-23)⟩ : Array3).get? (ClampExpansion 7)
        = some h ∧
      (⟨F32.one, F32.one, F32.fin false 8388608 (-22)⟩ : Array3).get? (ClampExpansion 7)
        = some d ∧
      ClampExpansion 7 ≤ 2 ∧
      ComputeScaling
          { continentHealth := ⟨F32.one, F32.one, F32.fin false 12582912 (-23)⟩,
            continentDamage := ⟨F32.one, F32.one, F32.fin false 8388608 (-22)⟩ }
          (some ⟨some ⟨true, 7⟩, false⟩) 12 300 false =
        some { healthMult := h, damageMult := d, source := Source.Continent,
               zoneId := 12, expansion := ClampExpansion 7 } :=
  C3_continent_fallback
    { continentHealth := ⟨F32.one, F32.one, F32.fin false 12582912 (-23)⟩,
      continentDamage := ⟨F32.one, F32.one, F32.fin false 8388608 (-22)⟩ }
    ⟨some ⟨true, 7⟩, false⟩ ⟨true, 7⟩ 12 300 rfl rfl rfl rfl rfl rfl

/-- C4. Disabled gate: when `enabled` is false, `ComputeScaling` answers `Disabled`
with both multipliers `1.0f`, for every map (null, instanced or not, continent or not),
zone, creature, pet/guardian flag and content of the override tables. -/
theorem C4_disabled_gate (gConfig : OutdoorScalingConfig) (map : Option Map)
    (zoneId creatureEntry : Nat) (isPetOrGuardian : Bool)
    (hdis : gConfig.enabled = false) :
    ComputeScaling gConfig map zoneId creatureEntry isPetOrGuardian =
      some { healthMult := F32.one, damageMult := F32.one, source := Source.Disabled,
             zoneId := zoneId, expansion := 0 } := by
  simp [ComputeScaling, hdis]

/-- C4, at a disabled configuration whose tables match the creature and the zone. -/
theorem C4_disabled_gate_witness :
    ComputeScaling
        { enabled := false,
          zoneOverrides := [(12, (F32.fin false 8388608 (-22), F32.one))],
          creatureOverrides := [(299, (F32.fin false 12582912 (-23), F32.one))] }
        (some ⟨some ⟨true, 1⟩, false⟩) 12 299 false =
      some { healthMult := F32.one, damageMult := F32.one, source := Source.Disabled,
             zoneId := 12, expansion := 0 } :=
  C4_disabled_gate _ _ 12 299 false rfl

/-- C5. Outdoor gate: with the module enabled, a map that is null, instanced, without
entry or not of continent type makes `ComputeScaling` answer `NotOutdoor` with both
multipliers `1.0f`, for every zone, creature and pet/guardian flag, also when an
override matches. -/
theorem C5_outdoor_gate (gConfig : OutdoorScalingConfig) (map : Option Map)
    (zoneId creatureEntry : Nat) (isPetOrGuardian : Bool)
    (hen : gConfig.enabled = true)
    (hmap : ∀ m, map = some m →
      m.instanceable = true ∨ ∀ entry, m.entry = some entry → entry.isContinent = false) :
    ComputeScaling gConfig map zoneId creatureEntry isPetOrGuardian =
      some { healthMult := F32.one, damageMult := F32.one, source := Source.NotOutdoor,
             zoneId := zoneId, expansion := 0 } := by
  cases map with
  | none => simp [ComputeScaling, hen]
  | some m =>
    have hout : IsOutdoorContinent (some m) = false :=
      IsOutdoorContinent_eq_false m (hmap m rfl)
    simp [ComputeScaling, hen, hout]

/-- C5, on an instanced continent-type map with a matching creature override. -/
theorem C5_outdoor_gate_witness :
    ComputeScaling
        { creatureOverrides := [(299, (F32.fin false 12582912 (-23), F32.one))] }
        (some ⟨some ⟨true, 1⟩, true⟩) 12 299 false =
      some { healthMult := F32.one, damageMult := F32.one, source := Source.NotOutdoor,
             zoneId := 12, expansion := 0 } :=
  C5_outdoor_gate _ (some ⟨some ⟨true, 1⟩, true⟩) 12 299 false rfl
    (fun m hm => Or.inl (by cases hm; rfl))

/-- C6. Pet/guardian gate, after the outdoor gate and before the lookups: with the
module enabled, a pet or guardian on a non-instanced continent map gets `PetOrGuardian`
with both multipliers `1.0f` whatever the override tables hold, and the same pet on an
instanced or non-continent map gets `NotOutdoor`. -/
theorem C6_pet_gate (gConfig : OutdoorScalingConfig) (zoneId creatureEntry : Nat)
    (hen : gConfig.enabled = true) :
    (∀ (m : Map) (entry : MapEntry), m.entry = some entry → m.instanceable = false →
      entry.isContinent = true →
      ComputeScaling gConfig (some m) zoneId creatureEntry true =
        some { healthMult := F32.one, damageMult := F32.one,
               source := Source.PetOrGuardian, zoneId := zoneId, expansion := 0 }) ∧
    (∀ (m : Map),
      (m.instanceable = true ∨ ∀ entry, m.entry = some entry → entry.isContinent = false) →
      ComputeScaling gConfig (some m) zoneId creatureEntry true =
        some { healthMult := F32.one, damageMult := F32.one,
               source := Source.NotOutdoor, zoneId := zoneId, expansion := 0 }) := by
  constructor
  · intro m entry hentry hinst hcont
    simp [ComputeScaling, IsOutdoorContinent, hen, hentry, hinst, hcont]
  · intro m hm
    have hout : IsOutdoorContinent (some m) = false :=
      IsOutdoorContinent_eq_false m hm
    simp [ComputeScaling, hen, hout]

/-- C6, for a pet whose template id and zone both have an override. -/
theorem C6_pet_gate_witness :
    ComputeScaling
        { zoneOverrides := [(12, (F32.fin false 8388608 (-22), F32.one))],
          creatureOverrides := [(299, (F32.fin false 12582912 (-23), F32.one))] }
        (some ⟨some ⟨true, 1⟩, false⟩) 12 299 true =
      some { healthMult := F32.one, damageMult := F32.one,
             source := Source.PetOrGuardian, zoneId := 12, expansion := 0 } :=
  (C6_pet_gate
    { zoneOverrides := [(12, (F32.fin false 8388608 (-22), F32.one))],
      creatureOverrides := [(299, (F32.fin false 12582912 (-23), F32.one))] }
    12 299 rfl).1 ⟨some ⟨true, 1⟩, false⟩ ⟨true, 1⟩ rfl rfl rfl

/-- C7. Expansion clamp: for every configuration and every other input, a map whose
expansion value is greater than 2 gets exactly the `ScalingResult` of the otherwise
identical map whose expansion value is 2. -/
theorem C7_expansion_clamp (gConfig : OutdoorScalingConfig) (isContinent instanceable : Bool)
    (expansion zoneId creatureEntry : Nat) (isPetOrGuardian : Bool)
    (hgt : expansion > 2) :
    ComputeScaling gConfig (some ⟨some ⟨isContinent, expansion⟩, instanceable⟩)
        zoneId creatureEntry isPetOrGuardian =
      ComputeScaling gConfig (some ⟨some ⟨isContinent, 2⟩, instanceable⟩)
        zoneId creatureEntry isPetOrGuardian := by
  have h1 : ClampExpansion expansion = 2 := by
    unfold ClampExpansion
    simp [hgt]
  have h2 : ClampExpansion 2 = 2 := by decide
  simp only [ComputeScaling, IsOutdoorContinent, h1, h2]

/-- C7, for expansion value 5 on the default configuration. -/
theorem C7_expansion_clamp_witness :
    (5 : Nat) > 2 ∧
    ComputeScaling {} (some ⟨some ⟨true, 5⟩, false⟩) 12 299 false =
      ComputeScaling {} (some ⟨some ⟨true, 2⟩, false⟩) 12 299 false :=
  ⟨by decide, C7_expansion_clamp {} true false 5 12 299 false (by decide)⟩

/-! ## The override-string reader -/

/-- A float above `0.0f` fails the test `x <= 0.0f`. -/
theorem F32.le_zero_eq_false_of_pos (x : F32) (h : F32.lt F32.zero x = true) :
    F32.le x F32.zero = false := by
  cases x with
  | nan => rfl
  | inf neg => cases neg <;> simp_all [F32.lt, F32.le, F32.key, F32.zero]
  | fin neg m e =>
    have hnn : (0 : Int) ≤ (m : Int) * 2 ^ (e + 149).toNat := by positivity
    cases neg
    · simp only [F32.lt, F32.le, F32.key, F32.zero] at h ⊢
      simp at h ⊢
      omega
    · simp only [F32.lt, F32.key, F32.zero] at h
      simp at h
      omega

/-- A text without delimiter that is not empty is delivered as one chunk. -/
theorem getlines_single (delim : Char) (s : List Char) (hne : s ≠ [])
    (hs : ∀ c ∈ s, c ≠ delim) : getlines delim s = [s] := by
  induction s with
  | nil => exact absurd rfl hne
  | cons c cs ih =>
    have hc : c ≠ delim := hs c (List.mem_cons_self _ _)
    cases cs with
    | nil => simp [getlines, hc]
    | cons c2 cs2 =>
      have := ih (by simp) (fun x hx => hs x (List.mem_cons_of_mem _ hx))
      rw [getlines, if_neg hc, this]

/-- Reading from a stream that starts with a token followed by a blank, or by nothing,
yields the token and leaves what follows it. -/
theorem extract_token (t r : List Char) (hne : t ≠ [])
    (hns : ∀ c ∈ t, isSpace c = false)
    (hr : r = [] ∨ ∃ r2, r = ' ' :: r2) :
    extract (t ++ r) = (t, r) := by
  have hdrop : (t ++ r).dropWhile isSpace = t ++ r := by
    cases t with
    | nil => exact absurd rfl hne
    | cons a t2 =>
      have : isSpace a = false := hns a (List.mem_cons_self _ _)
      simp [List.dropWhile, this]
  have htake : ∀ (t : List Char), (∀ c ∈ t, isSpace c = false) →
      (t ++ r).takeWhile (fun c => !isSpace c) = t ∧
      (t ++ r).dropWhile (fun c => !isSpace c) = r := by
    intro t
    induction t with
    | nil =>
      intro _
      rcases hr with h | ⟨r2, h⟩
      · subst h; simp
      · subst h
        have : isSpace ' ' = true := by decide
        simp [List.takeWhile, List.dropWhile, this]
    | cons a t2 ih =>
      intro h
      have ha : isSpace a = false := h a (List.mem_cons_self _ _)
      have := ih (fun c hc => h c (List.mem_cons_of_mem _ hc))
      simp [List.takeWhile, List.dropWhile, ha, this.1, this.2]
  unfold extract
  simp only [hdrop]
  rw [(htake t hns).1, (htake t hns).2]

/-- A blank in front of the text is skipped by the read. -/
theorem extract_blank (r : List Char) : extract (' ' :: r) = extract r := by
  have : isSpace ' ' = true := by decide
  simp [extract, List.dropWhile, this]

/-- Reading from the exhausted stream yields the empty string. -/
theorem extract_nil : extract [] = ([], []) := rfl

/-- `std::stoul` throws on the empty string. -/
theorem stoul_nil : stoul [] = none := by decide

/-- `std::stof` throws on the empty string. -/
theorem stof_nil : stof [] = none := by decide

set_option maxRecDepth 20000 in
/-- The range error of `std::stof` at the underflow boundary: a value that is not exact
and stays below `2^-126` after rounding to 24 bits is refused, also when it rounds to
`2^-126` as a subnormal; the bit that follows the 24 bits of a hexadecimal float does not
count; a value that rounds up to `2^-126` at 24 bits is accepted. -/
theorem stof_underflow_boundary :
    stof "1.1754943e-38".toList = none ∧
    stof "0x0.ffffffp-126".toList = none ∧
    stof "0x0.fffffe8p-126".toList = some (F32.fin false 8388607 (-149)) ∧
    stof "0x0.ffffff8p-126".toList = some (F32.fin false 8388608 (-149)) ∧
    stof "1.17549435e-38".toList = some (F32.fin false 8388608 (-149)) ∧
    stof "1e-45".toList = none ∧
    stof "1.401298464324817e-45".toList = none := by
  decide

/-- C8. Well-formed entries, whatever the conversions `std::stoul` (`cstoul`) and
`std::stof` (`cstof`) compute: when the tokens `idTok`, `hpTok`, `dmgTok` (not empty, no
white space, no comma) convert to an id below `2^32` and to floats `hp > 0`, `dmg > 0`,
the single entry `idTok hpTok dmgTok` yields exactly the map with the one pair
`id ↦ (hp, dmg)`, and the single entry `idTok hpTok` yields exactly the map with
`id ↦ (hp, hp)`. -/
theorem C8_well_formed_entry (cstoul : List Char → Option Nat)
    (cstof : List Char → Option F32)
    (idTok hpTok dmgTok : List Char) (id : Nat) (hp dmg : F32)
    (hidne : idTok ≠ []) (hhpne : hpTok ≠ []) (hdmgne : dmgTok ≠ [])
    (hidT : ∀ c ∈ idTok, isSpace c = false ∧ c ≠ ',')
    (hhpT : ∀ c ∈ hpTok, isSpace c = false ∧ c ≠ ',')
    (hdmgT : ∀ c ∈ dmgTok, isSpace c = false ∧ c ≠ ',')
    (hid : cstoul idTok = some id) (hid32 : id < 2 ^ 32)
    (hhp : cstof hpTok = some hp) (hdmg : cstof dmgTok = some dmg)
    (hhp0 : F32.lt F32.zero hp = true) (hdmg0 : F32.lt F32.zero dmg = true) :
    ParseOverrideStringWith cstoul cstof (idTok ++ ' ' :: (hpTok ++ ' ' :: dmgTok)) =
      [(id, (hp, dmg))] ∧
    ParseOverrideStringWith cstoul cstof (idTok ++ ' ' :: hpTok) = [(id, (hp, hp))] := by
  have hmod : id % 2 ^ 32 = id := Nat.mod_eq_of_lt hid32
  have h32 : id < 4294967296 := by simpa using hid32
  have hle1 := F32.le_zero_eq_false_of_pos hp hhp0
  have hle2 := F32.le_zero_eq_false_of_pos dmg hdmg0
  have hblank : (' ' : Char) ≠ ',' := by decide
  have e1 : ∀ r, extract (idTok ++ ' ' :: r) = (idTok, ' ' :: r) := fun r =>
    extract_token idTok (' ' :: r) hidne (fun c hc => (hidT c hc).1) (Or.inr ⟨r, rfl⟩)
  have e2 : extract (' ' :: (hpTok ++ ' ' :: dmgTok)) = (hpTok, ' ' :: dmgTok) := by
    rw [extract_blank]
    exact extract_token hpTok (' ' :: dmgTok) hhpne (fun c hc => (hhpT c hc).1)
      (Or.inr ⟨dmgTok, rfl⟩)
  have e3 : extract (' ' :: dmgTok) = (dmgTok, []) := by
    rw [extract_blank]
    simpa using extract_token dmgTok [] hdmgne (fun c hc => (hdmgT c hc).1) (Or.inl rfl)
  have e4 : extract (' ' :: hpTok) = (hpTok, []) := by
    rw [extract_blank]
    simpa using extract_token hpTok [] hhpne (fun c hc => (hhpT c hc).1) (Or.inl rfl)
  have hidE : idTok.isEmpty = false := by
    cases idTok with
    | nil => exact absurd rfl hidne
    | cons _ _ => rfl
  have hhpE : hpTok.isEmpty = false := by
    cases hpTok with
    | nil => exact absurd rfl hhpne
    | cons _ _ => rfl
  have hdmgE : dmgTok.isEmpty = false := by
    cases dmgTok with
    | nil => exact absurd rfl hdmgne
    | cons _ _ => rfl
  constructor
  · have hchunk : getlines ',' (idTok ++ ' ' :: (hpTok ++ ' ' :: dmgTok)) =
        [idTok ++ ' ' :: (hpTok ++ ' ' :: dmgTok)] := by
      apply getlines_single
      · simp
      · intro c hc
        simp only [List.mem_append, List.mem_cons] at hc
        rcases hc with h | h | h | h | h
        · exact (hidT c h).2
        · rw [h]; exact hblank
        · exact (hhpT c h).2
        · rw [h]; exact hblank
        · exact (hdmgT c h).2
    simp [ParseOverrideStringWith, hchunk, parseChunk, readTokens, e1, e2, e3, convert, hid, hhp, hdmg,
      hmod, h32, hle1, hle2, hidE, hhpE, hdmgE, UMap.set]
  · have hchunk : getlines ',' (idTok ++ ' ' :: hpTok) = [idTok ++ ' ' :: hpTok] := by
      apply getlines_single
      · simp
      · intro c hc
        simp only [List.mem_append, List.mem_cons] at hc
        rcases hc with h | h | h
        · exact (hidT c h).2
        · rw [h]; exact hblank
        · exact (hhpT c h).2
    simp [ParseOverrideStringWith, hchunk, parseChunk, readTokens, e1, e4, extract_nil, convert, hid, hhp,
      hmod, h32, hle1, hidE, hhpE, UMap.set]

/-- C8, for the entries `7 1.5 2` and `7 1.5` read with `std::stoul` and `std::stof`. -/
theorem C8_well_formed_entry_witness :
    ParseOverrideString "7 1.5 2".toList =
      [(7, (F32.fin false 12582912 (-23), F32.fin false 8388608 (-22)))] ∧
    ParseOverrideString "7 1.5".toList =
      [(7, (F32.fin false 12582912 (-23), F32.fin false 12582912 (-23)))] :=
  C8_well_formed_entry stoul stof "7".toList "1.5".toList "2".toList 7
    (F32.fin false 12582912 (-23)) (F32.fin false 8388608 (-22))
    (by decide) (by decide) (by decide)
    (by decide) (by decide) (by decide) (by decide) (by decide) (by decide) (by decide)
    (by decide) (by decide)

/-- What a successful `try` block has computed. -/
theorem convert_eq_some (cstoul : List Char → Option Nat) (cstof : List Char → Option F32)
    (idStr hpStr dmgStr : List Char) (id : Nat) (hp dmg : F32)
    (h : convert cstoul cstof idStr hpStr dmgStr = some (id, hp, dmg)) :
    (∃ n, cstoul idStr = some n ∧ id = n % 2 ^ 32) ∧ cstof hpStr = some hp ∧
      (if dmgStr.isEmpty then dmg = hp else cstof dmgStr = some dmg) := by
  unfold convert at h
  cases h1 : cstoul idStr with
  | none => simp [h1] at h
  | some n =>
    cases h2 : cstof hpStr with
    | none => simp [h1, h2] at h
    | some hp2 =>
      cases h3 : dmgStr.isEmpty with
      | true =>
        simp [h1, h2, h3] at h
        obtain ⟨ha, hb, hc⟩ := h
        simp [h3, ← ha, ← hb, ← hc]
      | false =>
        cases h4 : cstof dmgStr with
        | none => simp [h1, h2, h3, h4] at h
        | some dmg2 =>
          simp [h1, h2, h3, h4] at h
          obtain ⟨ha, hb, hc⟩ := h
          simp [h3, ← ha, ← hb, ← hc]

/-- Every pair that the loop body stores has passed both `<= 0.0f` tests. -/
theorem parseChunk_stored (cstoul : List Char → Option Nat)
    (cstof : List Char → Option F32) (overrides : UMap) (chunk : List Char)
    (hov : ∀ p ∈ overrides, F32.le p.2.1 F32.zero = false ∧ F32.le p.2.2 F32.zero = false) :
    ∀ p ∈ parseChunk cstoul cstof overrides chunk,
      F32.le p.2.1 F32.zero = false ∧ F32.le p.2.2 F32.zero = false := by
  unfold parseChunk
  simp only
  split
  · exact hov
  · split
    · exact hov
    · rename_i id hp dmg _
      split
      · exact hov
      · rename_i hpos
        intro p hp2
        simp only [UMap.set, List.mem_cons, List.mem_filter] at hp2
        rcases hp2 with h | h
        · subst h
          simpa using hpos
        · exact hov p h.1

/-- Every pair in the map returned by `ParseOverrideString` has passed both `<= 0.0f`
tests: neither multiplier is zero, negative or negative infinity. -/
theorem ParseOverrideString_stored (input : List Char) :
    ∀ p ∈ ParseOverrideString input,
      F32.le p.2.1 F32.zero = false ∧ F32.le p.2.2 F32.zero = false := by
  unfold ParseOverrideString ParseOverrideStringWith
  generalize getlines ',' input = chunks
  have key : ∀ (cs : List (List Char)) (m : UMap),
      (∀ p ∈ m, F32.le p.2.1 F32.zero = false ∧ F32.le p.2.2 F32.zero = false) →
      ∀ p ∈ cs.foldl (parseChunk stoul stof) m,
        F32.le p.2.1 F32.zero = false ∧ F32.le p.2.2 F32.zero = false := by
    intro cs
    induction cs with
    | nil => intro m hm; simpa using hm
    | cons c cs ih =>
      intro m hm
      simp only [List.foldl_cons]
      exact ih _ (parseChunk_stored stoul stof m c hm)
  exact key chunks [] (by simp)

/-- C9. The entry `1 nan` is stored although its multipliers are not above zero:
`std::stof` converts `nan` to NaN, both tests `hp <= 0.0f` and `dmg <= 0.0f` are
false for NaN, and the map returned holds `1 ↦ (NaN, NaN)`, where `NaN > 0` is false. -/
theorem C9_nan_entry_is_stored :
    ParseOverrideString "1 nan".toList = [(1, (F32.nan, F32.nan))] ∧
    F32.lt F32.zero F32.nan = false ∧ F32.le F32.nan F32.zero = false := by
  decide

/-- A text that ends with a delimiter delivers at least one chunk. -/
theorem getlines_append_delim_ne_nil (delim : Char) (A R : List Char) :
    getlines delim (A ++ delim :: R) ≠ [] := by
  induction A with
  | nil => simp [getlines]
  | cons c cs ih =>
    by_cases hc : c = delim
    · simp [getlines, hc]
    · simp only [List.cons_append, getlines, if_neg hc]
      cases h : getlines delim (cs ++ delim :: R) with
      | nil => exact absurd h ih
      | cons chunk rest => simp

/-- The chunks of `A`, a delimiter and `R` are the chunks of `A` closed by a delimiter,
then the chunks of `R`. -/
theorem getlines_append_delim (delim : Char) (A R : List Char) :
    getlines delim (A ++ delim :: R) = getlines delim (A ++ [delim]) ++ getlines delim R := by
  induction A with
  | nil => simp [getlines]
  | cons c cs ih =>
    by_cases hc : c = delim
    · simp [getlines, hc, ih]
    · simp only [List.cons_append, getlines, if_neg hc, List.append_eq]
      rw [ih]
      cases h : getlines delim (cs ++ [delim]) with
      | nil => exact absurd h (getlines_append_delim_ne_nil delim cs [])
      | cons chunk rest => simp

/-- A text without delimiter, closed by one, is delivered as one chunk. -/
theorem getlines_closed_single (delim : Char) (e : List Char) (he : ∀ c ∈ e, c ≠ delim) :
    getlines delim (e ++ [delim]) = [e] := by
  induction e with
  | nil => simp [getlines]
  | cons c cs ih =>
    have hc : c ≠ delim := he c (List.mem_cons_self _ _)
    have := ih (fun x hx => he x (List.mem_cons_of_mem _ hx))
    simp [getlines, hc, this]

/-- Closing a text by a delimiter adds at most one empty chunk at the end. -/
theorem getlines_closed (delim : Char) (A : List Char) :
    getlines delim (A ++ [delim]) = getlines delim A ∨
    getlines delim (A ++ [delim]) = getlines delim A ++ [[]] := by
  induction A with
  | nil => right; simp [getlines]
  | cons c cs ih =>
    by_cases hc : c = delim
    · rcases ih with h | h
      · left; simp [getlines, hc, h]
      · right; simp [getlines, hc, h]
    · rcases ih with h | h
      · left; simp [getlines, hc, h]
      · cases h2 : getlines delim cs with
        | nil =>
          left
          rw [h2] at h
          simp [getlines, hc, h, h2]
        | cons chunk rest =>
          right
          rw [h2] at h
          simp [getlines, hc, h, h2]

/-- A text without delimiter delivers itself as the only chunk, or nothing if empty. -/
theorem getlines_no_delim (delim : Char) (e : List Char) (he : ∀ c ∈ e, c ≠ delim) :
    getlines delim e = [e] ∨ getlines delim e = [] := by
  cases e with
  | nil => right; rfl
  | cons c cs => left; exact getlines_single delim (c :: cs) (by simp) he

/-- The loop body skips the empty chunk. -/
theorem parseChunk_nil (cstoul : List Char → Option Nat) (cstof : List Char → Option F32)
    (overrides : UMap) : parseChunk cstoul cstof overrides [] = overrides := rfl

/-- The loop body skips a chunk with fewer than two tokens, with a token that fails to
convert, or with a health or damage that is `<= 0.0f`. -/
theorem parseChunk_skip (cstoul : List Char → Option Nat) (cstof : List Char → Option F32)
    (overrides : UMap) (e : List Char)
    (hdisc : (readTokens e).1 = [] ∨ (readTokens e).2.1 = [] ∨
      cstoul (readTokens e).1 = none ∨ cstof (readTokens e).2.1 = none ∨
      ((readTokens e).2.2 ≠ [] ∧ cstof (readTokens e).2.2 = none) ∨
      (∃ hp, cstof (readTokens e).2.1 = some hp ∧ F32.le hp F32.zero = true) ∨
      (∃ dmg, (readTokens e).2.2 ≠ [] ∧ cstof (readTokens e).2.2 = some dmg ∧
        F32.le dmg F32.zero = true)) :
    parseChunk cstoul cstof overrides e = overrides := by
  unfold parseChunk
  simp only
  by_cases hcond : ((readTokens e).1.isEmpty || (readTokens e).2.1.isEmpty) = true
  · rw [if_pos hcond]
  · rw [if_neg hcond]
    have hempty := hcond
    simp only [Bool.or_eq_true, not_or, List.isEmpty_iff] at hempty
    cases hconv : convert cstoul cstof (readTokens e).1 (readTokens e).2.1 (readTokens e).2.2 with
    | none => rfl
    | some r =>
      obtain ⟨id, hp, dmg⟩ := r
      obtain ⟨⟨n, hn, _⟩, hhp, hdmg⟩ := convert_eq_some cstoul cstof _ _ _ id hp dmg hconv
      have hdne : (readTokens e).2.2 ≠ [] → cstof (readTokens e).2.2 = some dmg := by
        intro hne
        have : (readTokens e).2.2.isEmpty = false := by
          cases h : (readTokens e).2.2 with
          | nil => exact absurd h hne
          | cons _ _ => rfl
        simpa [this] using hdmg
      rcases hdisc with h | h | h | h | h | h | h
      · exact absurd h hempty.1
      · exact absurd h hempty.2
      · rw [h] at hn; cases hn
      · rw [h] at hhp; cases hhp
      · rw [hdne h.1] at h; cases h.2
      · obtain ⟨hp2, h1, h2⟩ := h
        rw [hhp] at h1
        cases h1
        simp [h2]
      · obtain ⟨dmg2, h0, h1, h2⟩ := h
        rw [hdne h0] at h1
        cases h1
        simp [h2]

/-- C10. Entry-level skip, whatever the conversions `std::stoul` (`cstoul`) and
`std::stof` (`cstof`) compute: an entry `e` (a text without comma) that is empty, has
fewer than two tokens, has a token that fails to convert, or has a health or damage that
is `<= 0.0f` changes nothing: the map read from `A,e,B` is the map read from `A,B`, the
map read from `e,B` is the map read from `B`, the map read from `A,e` is the map read
from `A`, and `e` alone gives the empty map. The reader is a total function: it returns
a map on every input. -/
theorem C10_entry_level_skip (cstoul : List Char → Option Nat)
    (cstof : List Char → Option F32) (A B e : List Char) (he : ∀ c ∈ e, c ≠ ',')
    (hdisc : (readTokens e).1 = [] ∨ (readTokens e).2.1 = [] ∨
      cstoul (readTokens e).1 = none ∨ cstof (readTokens e).2.1 = none ∨
      ((readTokens e).2.2 ≠ [] ∧ cstof (readTokens e).2.2 = none) ∨
      (∃ hp, cstof (readTokens e).2.1 = some hp ∧ F32.le hp F32.zero = true) ∨
      (∃ dmg, (readTokens e).2.2 ≠ [] ∧ cstof (readTokens e).2.2 = some dmg ∧
        F32.le dmg F32.zero = true)) :
    ParseOverrideStringWith cstoul cstof (A ++ ',' :: (e ++ ',' :: B)) =
      ParseOverrideStringWith cstoul cstof (A ++ ',' :: B) ∧
    ParseOverrideStringWith cstoul cstof (e ++ ',' :: B) =
      ParseOverrideStringWith cstoul cstof B ∧
    ParseOverrideStringWith cstoul cstof (A ++ ',' :: e) =
      ParseOverrideStringWith cstoul cstof A ∧
    ParseOverrideStringWith cstoul cstof e = [] := by
  have hskip : ∀ m, parseChunk cstoul cstof m e = m :=
    fun m => parseChunk_skip cstoul cstof m e hdisc
  have hfront : ∀ R, getlines ',' (e ++ ',' :: R) = e :: getlines ',' R := by
    intro R
    rw [getlines_append_delim, getlines_closed_single ',' e he]
    rfl
  have halone : ∀ m, (getlines ',' e).foldl (parseChunk cstoul cstof) m = m := by
    intro m
    rcases getlines_no_delim ',' e he with h | h
    · simp [h, hskip]
    · simp [h]
  have hclosed : ∀ m, (getlines ',' (A ++ [','])).foldl (parseChunk cstoul cstof) m =
      (getlines ',' A).foldl (parseChunk cstoul cstof) m := by
    intro m
    rcases getlines_closed ',' A with h | h
    · rw [h]
    · rw [h, List.foldl_append]
      simp [parseChunk_nil]
  refine ⟨?_, ?_, ?_, ?_⟩
  · unfold ParseOverrideStringWith
    rw [getlines_append_delim, hfront, getlines_append_delim ',' A B]
    simp [List.foldl_append, hskip]
  · unfold ParseOverrideStringWith
    rw [hfront]
    simp [hskip]
  · unfold ParseOverrideStringWith
    rw [getlines_append_delim, List.foldl_append, halone, hclosed]
  · unfold ParseOverrideStringWith
    exact halone []

/-- C10, for the entry ` 7 -1` (health below zero) between `1 1.5` and `2 3 4`, read with
`std::stoul` and `std::stof`. -/
theorem C10_entry_level_skip_witness :
    ParseOverrideString "1 1.5, 7 -1,2 3 4".toList = ParseOverrideString "1 1.5,2 3 4".toList ∧
    ParseOverrideString " 7 -1,2 3 4".toList = ParseOverrideString "2 3 4".toList ∧
    ParseOverrideString "1 1.5, 7 -1".toList = ParseOverrideString "1 1.5".toList ∧
    ParseOverrideString " 7 -1".toList = [] :=
  C10_entry_level_skip stoul stof "1 1.5".toList "2 3 4".toList " 7 -1".toList (by decide)
    (Or.inr (Or.inr (Or.inr (Or.inr (Or.inr (Or.inl
      ⟨F32.fin true 8388608 (-23), by decide, by decide⟩))))))

/-! ## Last entry wins -/

/-- The loop body either skips the chunk or stores one pair that depends on the chunk
alone. -/
theorem parseChunk_cases (cstoul : List Char → Option Nat) (cstof : List Char → Option F32)
    (chunk : List Char) :
    (∀ overrides, parseChunk cstoul cstof overrides chunk = overrides) ∨
    ∃ id v, ∀ overrides, parseChunk cstoul cstof overrides chunk = UMap.set overrides id v := by
  unfold parseChunk
  simp only
  by_cases hcond : ((readTokens chunk).1.isEmpty || (readTokens chunk).2.1.isEmpty) = true
  · left; intro m; rw [if_pos hcond]
  · cases hconv : convert cstoul cstof (readTokens chunk).1 (readTokens chunk).2.1
        (readTokens chunk).2.2 with
    | none => left; intro m; rw [if_neg hcond]
    | some r =>
      obtain ⟨id, hp, dmg⟩ := r
      by_cases hpos : (F32.le hp F32.zero || F32.le dmg F32.zero) = true
      · left; intro m; rw [if_neg hcond]; simp only [hpos, if_true]
      · right
        refine ⟨id, (hp, dmg), ?_⟩
        intro m
        rw [if_neg hcond]
        simp only [hpos, if_false]
        rfl

/-- Looking up the key just assigned gives the assigned pair. -/
theorem UMap.find_set_self (m : UMap) (k : Nat) (v : F32 × F32) :
    UMap.find (UMap.set m k v) k = some v := by
  simp [UMap.set, UMap.find]

/-- Removing the pairs of one key does not change the lookup of another key. -/
theorem UMap.find_filter_ne (m : UMap) (k k2 : Nat) (hne : k ≠ k2) :
    UMap.find (m.filter (fun p => p.1 ≠ k)) k2 = UMap.find m k2 := by
  induction m with
  | nil => rfl
  | cons p rest ih =>
    obtain ⟨a, b⟩ := p
    by_cases ha : a = k
    · have hak2 : a ≠ k2 := ha ▸ hne
      rw [List.filter_cons_of_neg (by simp [ha]), ih]
      simp [UMap.find, hak2]
    · rw [List.filter_cons_of_pos (by simp [ha])]
      by_cases ha2 : a = k2
      · simp [UMap.find, ha2]
      · simp only [UMap.find, if_neg ha2]
        exact ih

/-- An assignment does not change the lookup of another key. -/
theorem UMap.find_set_ne (m : UMap) (k k2 : Nat) (v : F32 × F32) (hne : k ≠ k2) :
    UMap.find (UMap.set m k v) k2 = UMap.find m k2 := by
  simp only [UMap.set, UMap.find, if_neg hne]
  exact UMap.find_filter_ne m k k2 hne

/-- An assignment keeps the keys of the map distinct. -/
theorem UMap.set_nodup (m : UMap) (k : Nat) (v : F32 × F32)
    (h : (m.map Prod.fst).Nodup) : ((UMap.set m k v).map Prod.fst).Nodup := by
  simp only [UMap.set, List.map_cons, List.nodup_cons]
  constructor
  · intro hk
    rw [List.mem_map] at hk
    obtain ⟨p, hp, hpk⟩ := hk
    rw [List.mem_filter] at hp
    simp [hpk] at hp
  · exact h.sublist (List.Sublist.map _ (List.filter_sublist _))

/-- The loop keeps the keys of the map distinct. -/
theorem foldl_parseChunk_nodup (cstoul : List Char → Option Nat)
    (cstof : List Char → Option F32) (chunks : List (List Char)) (m : UMap)
    (h : (m.map Prod.fst).Nodup) :
    ((chunks.foldl (parseChunk cstoul cstof) m).map Prod.fst).Nodup := by
  induction chunks generalizing m with
  | nil => simpa using h
  | cons c cs ih =>
    simp only [List.foldl_cons]
    apply ih
    rcases parseChunk_cases cstoul cstof c with hc | ⟨id, v, hc⟩
    · rw [hc]; exact h
    · rw [hc]; exact UMap.set_nodup m id v h

/-- C11. Last entry wins, whatever the conversions `std::stoul` (`cstoul`) and `std::stof`
(`cstof`) compute: when the chunks of the input are `pre`, then a chunk `c` from which
the loop body stores `id ↦ v`, then chunks `post` of which none stores a pair under
`id`, the map returned associates `id` with `v`; and in the map returned for any input
each id occurs at most once. -/
theorem C11_last_wins (cstoul : List Char → Option Nat) (cstof : List Char → Option F32)
    (input : List Char) (pre post : List (List Char)) (c : List Char)
    (id : Nat) (v : F32 × F32)
    (hsplit : getlines ',' input = pre ++ c :: post)
    (hc : parseChunk cstoul cstof [] c = [(id, v)])
    (hpost : ∀ c2 ∈ post, ∀ v2, parseChunk cstoul cstof [] c2 ≠ [(id, v2)]) :
    UMap.find (ParseOverrideStringWith cstoul cstof input) id = some v ∧
    ((ParseOverrideStringWith cstoul cstof input).map Prod.fst).Nodup := by
  constructor
  · unfold ParseOverrideStringWith
    rw [hsplit, List.foldl_append, List.foldl_cons]
    have hstore : ∀ m, parseChunk cstoul cstof m c = UMap.set m id v := by
      rcases parseChunk_cases cstoul cstof c with h | ⟨id2, v2, h⟩
      · rw [h] at hc; cases hc
      · intro m
        have h0 := h []
        rw [hc] at h0
        simp only [UMap.set, List.filter_nil, List.cons.injEq, Prod.mk.injEq, and_true] at h0
        rw [h m, ← h0.1, ← h0.2]
    rw [hstore]
    have hkeep : ∀ (cs : List (List Char)) (m : UMap),
        (∀ c2 ∈ cs, ∀ v2, parseChunk cstoul cstof [] c2 ≠ [(id, v2)]) →
        UMap.find (cs.foldl (parseChunk cstoul cstof) m) id = UMap.find m id := by
      intro cs
      induction cs with
      | nil => intro m _; rfl
      | cons c2 cs ih =>
        intro m hcs
        simp only [List.foldl_cons]
        rw [ih _ (fun x hx => hcs x (List.mem_cons_of_mem _ hx))]
        rcases parseChunk_cases cstoul cstof c2 with h | ⟨id2, v2, h⟩
        · rw [h]
        · rw [h]
          apply UMap.find_set_ne
          intro hid
          apply hcs c2 (List.mem_cons_self _ _) v2
          rw [h, hid]
          rfl
    rw [hkeep post _ hpost]
    exact UMap.find_set_self _ id v
  · unfold ParseOverrideStringWith
    exact foldl_parseChunk_nodup cstoul cstof _ [] (by simp)

/-- C11, for the input `1 2, 1 3 4, 2 5` read with `std::stoul` and `std::stof`: id 1 ends
with the pair of its second entry. -/
theorem C11_last_wins_witness :
    UMap.find (ParseOverrideString "1 2, 1 3 4, 2 5".toList) 1 =
      some (F32.fin false 12582912 (-22), F32.fin false 8388608 (-21)) ∧
    ((ParseOverrideString "1 2, 1 3 4, 2 5".toList).map Prod.fst).Nodup :=
  C11_last_wins stoul stof "1 2, 1 3 4, 2 5".toList ["1 2".toList] [" 2 5".toList]
    " 1 3 4".toList 1
    (F32.fin false 12582912 (-22), F32.fin false 8388608 (-21))
    (by decide) (by decide)
    (by
      intro c2 hc2 v2 h
      rw [List.mem_singleton] at hc2
      subst hc2
      have h2 : parseChunk stoul stof [] " 2 5".toList =
          [(2, (F32.fin false 10485760 (-21), F32.fin false 10485760 (-21)))] := by decide
      rw [h2] at h
      simp at h)

/-! ## Tokens that do not convert -/

/-- C12 as stated fails: `std::stoul` and `std::stof` convert the longest numeric head of
a token and ignore what follows, and `std::stoul` accepts a minus sign. The entries
`12abc 2`, `7 1.5x` and `-5 2` are stored, the last one under `2^32 - 5`. -/
theorem C12_numeric_head_is_accepted :
    ParseOverrideString "12abc 2".toList =
      [(12, (F32.fin false 8388608 (-22), F32.fin false 8388608 (-22)))] ∧
    ParseOverrideString "7 1.5x".toList =
      [(7, (F32.fin false 12582912 (-23), F32.fin false 12582912 (-23)))] ∧
    ParseOverrideString "-5 2".toList =
      [(4294967291, (F32.fin false 8388608 (-22), F32.fin false 8388608 (-22)))] := by
  decide

/-- C12, amended. Whatever the conversions `std::stoul` (`cstoul`) and `std::stof`
(`cstof`) compute: an entry whose id token makes `std::stoul` throw, or whose health
token or (non-empty) damage token makes `std::stof` throw, stores no mapping: the loop
body leaves every map as it is, and the entry alone (a text without comma) reads as the
empty map. -/
theorem C12_throwing_token_rejected (cstoul : List Char → Option Nat)
    (cstof : List Char → Option F32) (e : List Char)
    (hthrow : cstoul (readTokens e).1 = none ∨ cstof (readTokens e).2.1 = none ∨
      ((readTokens e).2.2 ≠ [] ∧ cstof (readTokens e).2.2 = none)) :
    (∀ overrides, parseChunk cstoul cstof overrides e = overrides) ∧
    ((∀ c ∈ e, c ≠ ',') → ParseOverrideStringWith cstoul cstof e = []) := by
  have hskip : ∀ m, parseChunk cstoul cstof m e = m := by
    intro m
    apply parseChunk_skip
    rcases hthrow with h | h | h
    · exact Or.inr (Or.inr (Or.inl h))
    · exact Or.inr (Or.inr (Or.inr (Or.inl h)))
    · exact Or.inr (Or.inr (Or.inr (Or.inr (Or.inl h))))
  refine ⟨hskip, ?_⟩
  intro he
  unfold ParseOverrideStringWith
  rcases getlines_no_delim ',' e he with h | h
  · simp [h, hskip]
  · simp [h]

/-- C12 amended, for the entry `abc 2`, whose id token has no digit for `std::stoul`. -/
theorem C12_throwing_token_rejected_witness :
    (∀ overrides, parseChunk stoul stof overrides "abc 2".toList = overrides) ∧
    ((∀ c ∈ "abc 2".toList, c ≠ ',') → ParseOverrideString "abc 2".toList = []) :=
  C12_throwing_token_rejected stoul stof "abc 2".toList (Or.inl (by decide))

/-! ## Configuration load -/

/-- C13 as stated fails: a configuration source that supplies `-1.0` for
`OutdoorScaling.Continent.0.Health` has that value stored in `continentHealth[0]`,
and `-1.0 > 0` is false. -/
theorem C13_negative_continent_multiplier_stored :
    (OnBeforeConfigLoad
        ⟨fun _ => none,
         fun name =>
           if name = "OutdoorScaling.Continent.0.Health" then
             some (F32.fin true 8388608 (-23))
           else none,
         fun _ => none⟩ {}).continentHealth.a0 = F32.fin true 8388608 (-23) ∧
    F32.lt F32.zero (F32.fin true 8388608 (-23)) = false := by
  decide

/-- C13, amended. After every configuration load, every pair in `zoneOverrides` and in
`creatureOverrides` has passed both `<= 0.0f` tests (no multiplier in the tables is zero
or negative), and the six continent multipliers are the values the configuration source
supplies, `1.0f` where it supplies none. -/
theorem C13_loaded_configuration (sConfigMgr : ConfigMgr) (gConfig : OutdoorScalingConfig) :
    (∀ p ∈ (OnBeforeConfigLoad sConfigMgr gConfig).zoneOverrides,
      F32.le p.2.1 F32.zero = false ∧ F32.le p.2.2 F32.zero = false) ∧
    (∀ p ∈ (OnBeforeConfigLoad sConfigMgr gConfig).creatureOverrides,
      F32.le p.2.1 F32.zero = false ∧ F32.le p.2.2 F32.zero = false) ∧
    (OnBeforeConfigLoad sConfigMgr gConfig).continentHealth =
      ⟨(sConfigMgr.floatOption "OutdoorScaling.Continent.0.Health").getD F32.one,
       (sConfigMgr.floatOption "OutdoorScaling.Continent.1.Health").getD F32.one,
       (sConfigMgr.floatOption "OutdoorScaling.Continent.2.Health").getD F32.one⟩ ∧
    (OnBeforeConfigLoad sConfigMgr gConfig).continentDamage =
      ⟨(sConfigMgr.floatOption "OutdoorScaling.Continent.0.Damage").getD F32.one,
       (sConfigMgr.floatOption "OutdoorScaling.Continent.1.Damage").getD F32.one,
       (sConfigMgr.floatOption "OutdoorScaling.Continent.2.Damage").getD F32.one⟩ :=
  ⟨ParseOverrideString_stored _, ParseOverrideString_stored _, rfl, rfl⟩

/-! ## Stat application -/

/-- A float that is at least `a` is not below `a`. -/
theorem F32.lt_eq_false_of_le (a b : F32) (h : F32.le a b = true) : F32.lt b a = false := by
  unfold F32.le at h
  unfold F32.lt
  cases ha : a.key with
  | none => simp [ha] at h
  | some x =>
    cases hb : b.key with
    | none => simp [ha, hb] at h
    | some y =>
      simp only [ha, hb, Bool.or_eq_true, Bool.and_eq_true, decide_eq_true_eq] at h
      simp only [Bool.or_eq_false_iff, Bool.and_eq_false_iff, decide_eq_false_iff_not]
      omega

/-- The world rates depend on the creature's rank alone. -/
theorem GetWorldHealthRate_rank (sWorld : World) (c1 c2 : Creature) (h : c1.rank = c2.rank) :
    GetWorldHealthRate sWorld (some c1) = GetWorldHealthRate sWorld (some c2) := by
  simp [GetWorldHealthRate, h]

/-- The world damage rate depends on the creature's rank alone. -/
theorem GetWorldDamageRate_rank (sWorld : World) (c1 c2 : Creature) (h : c1.rank = c2.rank) :
    GetWorldDamageRate sWorld (some c1) = GetWorldDamageRate sWorld (some c2) := by
  simp [GetWorldDamageRate, h]

/-- The world spell damage rate depends on the creature's rank alone. -/
theorem GetWorldSpellDamageRate_rank (sWorld : World) (c1 c2 : Creature)
    (h : c1.rank = c2.rank) :
    GetWorldSpellDamageRate sWorld (some c1) = GetWorldSpellDamageRate sWorld (some c2) := by
  simp [GetWorldSpellDamageRate, h]

/-- `ApplyDamageScale` writes the six weapon damage values and nothing else. -/
theorem ApplyDamageScale_frame (sWorld : World) (c : Creature) (mult : F32) :
    (ApplyDamageScale sWorld c mult).createHealth = c.createHealth ∧
    (ApplyDamageScale sWorld c mult).maxHealth = c.maxHealth ∧
    (ApplyDamageScale sWorld c mult).health = c.health ∧
    (ApplyDamageScale sWorld c mult).healthBaseValue = c.healthBaseValue ∧
    (ApplyDamageScale sWorld c mult).info = c.info ∧
    (ApplyDamageScale sWorld c mult).rank = c.rank := by
  unfold ApplyDamageScale
  split
  · simp
  · simp [Creature.SetBaseWeaponDamage]

/-- What stat initialization does once the resolved source is one of the three scaled
sources. -/
theorem OnCreatureSelectLevel_scaled (gConfig : OutdoorScalingConfig) (sWorld : World)
    (creature : Creature) (scaling : ScalingResult)
    (hs : ComputeScaling gConfig creature.map creature.zoneId creature.entry
      (creature.isPet || creature.isGuardian) = some scaling)
    (hsrc : scaling.source = Source.Continent ∨ scaling.source = Source.ZoneOverride ∨
      scaling.source = Source.CreatureOverride) :
    OnCreatureSelectLevel gConfig sWorld (some creature) =
      if F32.le F32.epsilon (F32.abs (F32.sub scaling.healthMult F32.one)) then
        match F32.toUInt32 (F32.mul
          (F32.div (F32.ofUInt32 creature.maxHealth)
            (if F32.le (GetWorldHealthRate sWorld (some creature)) F32.zero then F32.one
             else GetWorldHealthRate sWorld (some creature)))
          scaling.healthMult) with
        | none => none
        | some v =>
          some (some (ApplyDamageScale sWorld
            { storeInfo creature scaling with
              createHealth := if v = 0 then 1 else v
              maxHealth := if v = 0 then 1 else v
              health := if v = 0 then 1 else v
              healthBaseValue := F32.ofUInt32 (if v = 0 then 1 else v) }
            scaling.damageMult))
      else some (some (ApplyDamageScale sWorld (storeInfo creature scaling) scaling.damageMult)) := by
  have hsrc2 : ¬(scaling.source ≠ Source.Continent ∧ scaling.source ≠ Source.ZoneOverride ∧
      scaling.source ≠ Source.CreatureOverride) := by
    rcases hsrc with h | h | h <;> simp [h]
  simp only [OnCreatureSelectLevel, hs, if_neg hsrc2]
  rfl

/-- C14 as stated fails where the scaled health is no `uint32`: at max-health
3000000000, world health rate `1.0f` and `healthMult` `2.0f` the product is 6000000000,
and at max-health 1000, world health rate `2.0f` and a continent `healthMult` of `-1.5f`
the product is `-750`; in both cases the conversion `uint32(...)` is undefined, and no
health value is set to `max(round_down(product), 1)`. -/
theorem C14_scaled_health_outside_uint32 :
    F32.mul (F32.div (F32.ofUInt32 3000000000) F32.one) (F32.fin false 8388608 (-22)) =
      F32.fin false 11718750 9 ∧
    OnCreatureSelectLevel
        { creatureOverrides := [(299, (F32.fin false 8388608 (-22), F32.fin false 8388608 (-22)))] }
        ⟨fun _ => F32.one⟩
        (some
          { map := some ⟨some ⟨true, 0⟩, false⟩, zoneId := 12, entry := 299, isPet := false,
            isGuardian := false, rank := CreatureEliteType.CREATURE_ELITE_WORLDBOSS,
            createHealth := 3000000000, maxHealth := 3000000000, health := 3000000000,
            healthBaseValue := F32.ofUInt32 3000000000, baseMin := F32.zero,
            baseMax := F32.zero, offMin := F32.zero, offMax := F32.zero, rngMin := F32.zero,
            rngMax := F32.zero, info := {} }) = none ∧
    F32.mul (F32.div (F32.ofUInt32 1000) (F32.fin false 8388608 (-22)))
      (F32.fin true 12582912 (-23)) = F32.fin true 12288000 (-14) ∧
    OnCreatureSelectLevel
        { continentHealth := ⟨F32.fin true 12582912 (-23), F32.one, F32.one⟩ }
        ⟨fun _ => F32.fin false 8388608 (-22)⟩
        (some
          { map := some ⟨some ⟨true, 0⟩, false⟩, zoneId := 12, entry := 299, isPet := false,
            isGuardian := false, rank := CreatureEliteType.CREATURE_ELITE_NORMAL,
            createHealth := 1000, maxHealth := 1000, health := 1000,
            healthBaseValue := F32.ofUInt32 1000, baseMin := F32.zero, baseMax := F32.zero,
            offMin := F32.zero, offMax := F32.zero, rngMin := F32.zero, rngMax := F32.zero,
            info := {} }) = none := by
  decide

/-- C14, amended. Health application: for a creature whose resolved source is `Continent`,
`ZoneOverride` or `CreatureOverride`, whose `healthMult` differs from `1.0f` by at least
epsilon, and whose world health rate is positive, let `p` be
`(float(maxHealth) / worldHealthRate) * healthMult`. When `uint32(p)` is a value `v`, stat
initialization returns a creature whose create-health, max-health and current health are
`max v 1`, whose base-value health modifier is `float(max v 1)`, and that value is at
least 1. When `uint32(p)` is undefined, so is the call. -/
theorem C14_health_application (gConfig : OutdoorScalingConfig) (sWorld : World)
    (creature : Creature) (scaling : ScalingResult)
    (hs : ComputeScaling gConfig creature.map creature.zoneId creature.entry
      (creature.isPet || creature.isGuardian) = some scaling)
    (hsrc : scaling.source = Source.Continent ∨ scaling.source = Source.ZoneOverride ∨
      scaling.source = Source.CreatureOverride)
    (hmult : F32.le F32.epsilon (F32.abs (F32.sub scaling.healthMult F32.one)) = true)
    (hrate : F32.lt F32.zero (GetWorldHealthRate sWorld (some creature)) = true) :
    (∀ v, F32.toUInt32 (F32.mul
        (F32.div (F32.ofUInt32 creature.maxHealth) (GetWorldHealthRate sWorld (some creature)))
        scaling.healthMult) = some v →
      ∃ c2, OnCreatureSelectLevel gConfig sWorld (some creature) = some (some c2) ∧
        c2.createHealth = max v 1 ∧ c2.maxHealth = max v 1 ∧ c2.health = max v 1 ∧
        c2.healthBaseValue = F32.ofUInt32 (max v 1) ∧ 1 ≤ c2.maxHealth) ∧
    (F32.toUInt32 (F32.mul
        (F32.div (F32.ofUInt32 creature.maxHealth) (GetWorldHealthRate sWorld (some creature)))
        scaling.healthMult) = none →
      OnCreatureSelectLevel gConfig sWorld (some creature) = none) := by
  have hrate2 : ¬(F32.le (GetWorldHealthRate sWorld (some creature)) F32.zero = true) := by
    rw [F32.le_zero_eq_false_of_pos _ hrate]
    simp
  rw [OnCreatureSelectLevel_scaled gConfig sWorld creature scaling hs hsrc, if_pos hmult,
    if_neg hrate2]
  constructor
  · intro v hv
    have hmax : (if v = 0 then 1 else v) = max v 1 := by
      split <;> omega
    rw [hv]
    simp only [hmax]
    refine ⟨_, rfl, ?_⟩
    have hf := ApplyDamageScale_frame sWorld
      { storeInfo creature scaling with
        createHealth := max v 1, maxHealth := max v 1, health := max v 1,
        healthBaseValue := F32.ofUInt32 (max v 1) } scaling.damageMult
    refine ⟨hf.1, hf.2.1, hf.2.2.1, hf.2.2.2.1, ?_⟩
    rw [hf.2.1]
    exact le_max_right v 1
  · intro hv
    rw [hv]

/-- C14 amended, at max-health 1000, world health rate `2.0f` and a creature override
`299 1.5`:
the four health values become 750. -/
theorem C14_health_application_witness :
    ∃ c2,
      OnCreatureSelectLevel
        { creatureOverrides := [(299, (F32.fin false 12582912 (-23), F32.fin false 12582912 (-23)))] }
        ⟨fun _ => F32.fin false 8388608 (-22)⟩
        (some
          { map := some ⟨some ⟨true, 0⟩, false⟩, zoneId := 12, entry := 299, isPet := false,
            isGuardian := false, rank := CreatureEliteType.CREATURE_ELITE_NORMAL,
            createHealth := 1000, maxHealth := 1000, health := 1000,
            healthBaseValue := F32.ofUInt32 1000, baseMin := F32.zero, baseMax := F32.zero,
            offMin := F32.zero, offMax := F32.zero, rngMin := F32.zero, rngMax := F32.zero,
            info := {} }) = some (some c2) ∧
      c2.createHealth = max 750 1 ∧ c2.maxHealth = max 750 1 ∧ c2.health = max 750 1 ∧
      c2.healthBaseValue = F32.ofUInt32 (max 750 1) ∧ 1 ≤ c2.maxHealth :=
  (C14_health_application
    { creatureOverrides := [(299, (F32.fin false 12582912 (-23), F32.fin false 12582912 (-23)))] }
    ⟨fun _ => F32.fin false 8388608 (-22)⟩
    { map := some ⟨some ⟨true, 0⟩, false⟩, zoneId := 12, entry := 299, isPet := false,
      isGuardian := false, rank := CreatureEliteType.CREATURE_ELITE_NORMAL,
      createHealth := 1000, maxHealth := 1000, health := 1000,
      healthBaseValue := F32.ofUInt32 1000, baseMin := F32.zero, baseMax := F32.zero,
      offMin := F32.zero, offMax := F32.zero, rngMin := F32.zero, rngMax := F32.zero,
      info := {} }
    { healthMult := F32.fin false 12582912 (-23), damageMult := F32.fin false 12582912 (-23),
      source := Source.CreatureOverride, zoneId := 12, expansion := 0 }
    (by decide) (by decide) (by decide) (by decide)).1 750 (by decide)

/-- The resolver always returns a result: its table subscript is a clamped value. -/
theorem ComputeScaling_isSome (gConfig : OutdoorScalingConfig) (map : Option Map)
    (zoneId creatureEntry : Nat) (isPetOrGuardian : Bool) :
    ∃ s, ComputeScaling gConfig map zoneId creatureEntry isPetOrGuardian = some s := by
  unfold ComputeScaling
  simp only
  split
  · exact ⟨_, rfl⟩
  · cases map with
    | none => exact ⟨_, rfl⟩
    | some m =>
      simp only
      split
      · exact ⟨_, rfl⟩
      · split
        · exact ⟨_, rfl⟩
        · split
          · exact ⟨_, rfl⟩
          · split
            · exact ⟨_, rfl⟩
            · have hcl : ∀ e, ClampExpansion e = 0 ∨ ClampExpansion e = 1 ∨
                  ClampExpansion e = 2 := by
                intro e
                unfold ClampExpansion
                split <;> omega
              cases hentry : m.entry with
              | none => simp [Array3.get?]
              | some entry =>
                rcases hcl entry.expansion with h | h | h <;> simp [h, Array3.get?]

/-- What the spell-damage hook does for a creature attacker and a nonzero damage once
the resolved source is one of the three scaled sources. -/
theorem ModifySpellDamageTaken_scaled (gConfig : OutdoorScalingConfig) (sWorld : World)
    (unit : Unit) (creature : Creature) (damage : Int) (scaling : ScalingResult)
    (hd : damage ≠ 0) (hu : unit.creature = some creature)
    (hs : ComputeScaling gConfig creature.map creature.zoneId creature.entry
      (creature.isPet || creature.isGuardian) = some scaling)
    (hsrc : scaling.source = Source.Continent ∨ scaling.source = Source.ZoneOverride ∨
      scaling.source = Source.CreatureOverride) :
    ModifySpellDamageTaken gConfig sWorld (some unit) damage =
      if F32.lt (F32.abs (F32.sub scaling.damageMult F32.one)) F32.epsilon then
        some (some { unit with creature := some (storeInfo creature scaling) }, damage)
      else
        match F32.toInt32 (F32.mul
          (F32.div (F32.ofInt32 damage)
            (if F32.le (GetWorldSpellDamageRate sWorld (some creature)) F32.zero then F32.one
             else GetWorldSpellDamageRate sWorld (some creature)))
          scaling.damageMult) with
        | none => none
        | some d =>
          some (some { unit with creature := some (storeInfo creature scaling) },
            if d = 0 then (if F32.lt F32.zero scaling.damageMult then 1 else 0) else d) := by
  have hsrc2 : ¬(scaling.source ≠ Source.Continent ∧ scaling.source ≠ Source.ZoneOverride ∧
      scaling.source ≠ Source.CreatureOverride) := by
    rcases hsrc with h | h | h <;> simp [h]
  simp only [ModifySpellDamageTaken, if_neg hd, hu, hs, if_neg hsrc2]
  rfl

/-- What the spell-damage hook does for a creature attacker and a nonzero damage when the
resolved source is none of the three scaled sources. -/
theorem ModifySpellDamageTaken_unscaled (gConfig : OutdoorScalingConfig) (sWorld : World)
    (unit : Unit) (creature : Creature) (damage : Int) (scaling : ScalingResult)
    (hd : damage ≠ 0) (hu : unit.creature = some creature)
    (hs : ComputeScaling gConfig creature.map creature.zoneId creature.entry
      (creature.isPet || creature.isGuardian) = some scaling)
    (hsrc : scaling.source ≠ Source.Continent ∧ scaling.source ≠ Source.ZoneOverride ∧
      scaling.source ≠ Source.CreatureOverride) :
    ModifySpellDamageTaken gConfig sWorld (some unit) damage =
      some (some { unit with creature := some (storeInfo creature scaling) }, damage) := by
  simp only [ModifySpellDamageTaken, if_neg hd, hu, hs, if_pos hsrc]

/-- C15. Spell damage never drops to zero: for a nonzero incoming damage, every world
spell damage rate and a positive resolved `damageMult`, every damage that
`ModifySpellDamageTaken` leaves is nonzero; and the call leaves a damage unless the
attacker is a creature for which the `int32` conversion of
`(float(damage) / worldSpellRate) * damageMult` is undefined. -/
theorem C15_spell_damage_never_zero (gConfig : OutdoorScalingConfig) (sWorld : World)
    (attacker : Option Unit) (damage : Int) (hd : damage ≠ 0)
    (hpos : ∀ unit c s, attacker = some unit → unit.creature = some c →
      ComputeScaling gConfig c.map c.zoneId c.entry (c.isPet || c.isGuardian) = some s →
      F32.lt F32.zero s.damageMult = true) :
    (∀ u d, ModifySpellDamageTaken gConfig sWorld attacker damage = some (u, d) → d ≠ 0) ∧
    (ModifySpellDamageTaken gConfig sWorld attacker damage = none →
      ∃ unit c s, attacker = some unit ∧ unit.creature = some c ∧
        ComputeScaling gConfig c.map c.zoneId c.entry (c.isPet || c.isGuardian) = some s ∧
        F32.toInt32 (F32.mul
          (F32.div (F32.ofInt32 damage)
            (if F32.le (GetWorldSpellDamageRate sWorld (some c)) F32.zero then F32.one
             else GetWorldSpellDamageRate sWorld (some c)))
          s.damageMult) = none) := by
  cases attacker with
  | none =>
    constructor
    · intro u d h
      simp only [ModifySpellDamageTaken, Option.some.injEq, Prod.mk.injEq] at h
      rw [← h.2]; exact hd
    · intro h
      simp [ModifySpellDamageTaken] at h
  | some unit =>
    cases hu : unit.creature with
    | none =>
      constructor
      · intro u d h
        simp only [ModifySpellDamageTaken, if_neg hd, hu, Option.some.injEq,
          Prod.mk.injEq] at h
        rw [← h.2]; exact hd
      · intro h
        simp [ModifySpellDamageTaken, hd, hu] at h
    | some c =>
      obtain ⟨s, hs⟩ := ComputeScaling_isSome gConfig c.map c.zoneId c.entry
        (c.isPet || c.isGuardian)
      have hm := hpos unit c s rfl hu hs
      by_cases hsrc : s.source ≠ Source.Continent ∧ s.source ≠ Source.ZoneOverride ∧
          s.source ≠ Source.CreatureOverride
      · rw [ModifySpellDamageTaken_unscaled gConfig sWorld unit c damage s hd hu hs hsrc]
        constructor
        · intro u d h
          simp only [Option.some.injEq, Prod.mk.injEq] at h
          rw [← h.2]; exact hd
        · intro h; cases h
      · have hsrc2 : s.source = Source.Continent ∨ s.source = Source.ZoneOverride ∨
            s.source = Source.CreatureOverride := by
          by_contra hcon
          simp only [not_or] at hcon
          exact hsrc hcon
        rw [ModifySpellDamageTaken_scaled gConfig sWorld unit c damage s hd hu hs hsrc2]
        split
        · constructor
          · intro u d h
            simp only [Option.some.injEq, Prod.mk.injEq] at h
            rw [← h.2]; exact hd
          · intro h; cases h
        · cases hconv : F32.toInt32 (F32.mul
              (F32.div (F32.ofInt32 damage)
                (if F32.le (GetWorldSpellDamageRate sWorld (some c)) F32.zero then F32.one
                 else GetWorldSpellDamageRate sWorld (some c)))
              s.damageMult) with
          | none =>
            constructor
            · intro u d h; cases h
            · intro _
              exact ⟨unit, c, s, rfl, hu, hs, hconv⟩
          | some d0 =>
            constructor
            · intro u d h
              simp only [Option.some.injEq, Prod.mk.injEq] at h
              rw [← h.2]
              by_cases hd0 : d0 = 0
              · simp [hd0, hm]
              · simp [hd0]
            · intro h; cases h

/-- C15, at damage 1, world spell damage rate `2.0f` and a creature override `299 1.5`:
the damage left is 1. -/
theorem C15_spell_damage_never_zero_witness :
    (ModifySpellDamageTaken
        { creatureOverrides := [(299, (F32.fin false 12582912 (-23), F32.fin false 12582912 (-23)))] }
        ⟨fun _ => F32.fin false 8388608 (-22)⟩
        (some ⟨some
          { map := some ⟨some ⟨true, 0⟩, false⟩, zoneId := 12, entry := 299, isPet := false,
            isGuardian := false, rank := CreatureEliteType.CREATURE_ELITE_NORMAL,
            createHealth := 1000, maxHealth := 1000, health := 1000,
            healthBaseValue := F32.ofUInt32 1000, baseMin := F32.zero, baseMax := F32.zero,
            offMin := F32.zero, offMax := F32.zero, rngMin := F32.zero, rngMax := F32.zero,
            info := {} }⟩) 1).map Prod.snd = some 1 ∧
    (1 : Int) ≠ 0 := by
  refine ⟨by decide, ?_⟩
  refine (C15_spell_damage_never_zero
    { creatureOverrides := [(299, (F32.fin false 12582912 (-23), F32.fin false 12582912 (-23)))] }
    ⟨fun _ => F32.fin false 8388608 (-22)⟩
    (some ⟨some
      { map := some ⟨some ⟨true, 0⟩, false⟩, zoneId := 12, entry := 299, isPet := false,
        isGuardian := false, rank := CreatureEliteType.CREATURE_ELITE_NORMAL,
        createHealth := 1000, maxHealth := 1000, health := 1000,
        healthBaseValue := F32.ofUInt32 1000, baseMin := F32.zero, baseMax := F32.zero,
        offMin := F32.zero, offMax := F32.zero, rngMin := F32.zero, rngMax := F32.zero,
        info := {} }⟩) 1 (by decide) ?_).1
    (some ⟨some
      (storeInfo
        { map := some ⟨some ⟨true, 0⟩, false⟩, zoneId := 12, entry := 299, isPet := false,
          isGuardian := false, rank := CreatureEliteType.CREATURE_ELITE_NORMAL,
          createHealth := 1000, maxHealth := 1000, health := 1000,
          healthBaseValue := F32.ofUInt32 1000, baseMin := F32.zero, baseMax := F32.zero,
          offMin := F32.zero, offMax := F32.zero, rngMin := F32.zero, rngMax := F32.zero,
          info := {} }
        { healthMult := F32.fin false 12582912 (-23), damageMult := F32.fin false 12582912 (-23),
          source := Source.CreatureOverride, zoneId := 12, expansion := 0 })⟩) 1 (by decide)
  intro unit c s hatt hu hs
  cases hatt
  simp only [Option.some.injEq] at hu
  subst hu
  have h0 : ComputeScaling
      { creatureOverrides := [(299, (F32.fin false 12582912 (-23), F32.fin false 12582912 (-23)))] }
      (some ⟨some ⟨true, 0⟩, false⟩) 12 299 (false || false) =
      some { healthMult := F32.fin false 12582912 (-23),
             damageMult := F32.fin false 12582912 (-23),
             source := Source.CreatureOverride, zoneId := 12, expansion := 0 } := by decide
  rw [h0] at hs
  cases hs
  decide

/-- A finite float with the sign bit set and a nonzero magnitude is below `0.0f`. -/
theorem F32.lt_zero_of_neg (m : Nat) (e : Int) (hm : 0 < m) :
    F32.lt (F32.fin true m e) F32.zero = true := by
  simp only [F32.lt, F32.key, F32.zero]
  simp
  exact hm

/-- The `int32` conversion discards the fraction: its result is the floor of the value,
or one more than the floor when the value is negative. -/
theorem F32.toInt32_specFloor (x : F32) (d : Int) (h : F32.toInt32 x = some d) :
    F32.specFloor x = some d ∨ (F32.lt x F32.zero = true ∧ F32.specFloor x = some (d - 1)) := by
  cases x with
  | nan => simp [F32.toInt32] at h
  | inf neg => simp [F32.toInt32] at h
  | fin neg m e =>
    simp only [F32.toInt32] at h
    split at h
    · simp only [Option.some.injEq] at h
      cases e with
      | ofNat k =>
        left
        simp only [F32.specFloor, ← h, F32.truncMag]
      | negSucc k =>
        by_cases hr : (neg && decide (m % 2 ^ (k + 1) ≠ 0)) = true
        · right
          simp only [Bool.and_eq_true, decide_eq_true_eq] at hr
          obtain ⟨hneg, hrem⟩ := hr
          subst hneg
          have hm : 0 < m := by
            rcases Nat.eq_zero_or_pos m with h0 | h0
            · rw [h0] at hrem; simp at hrem
            · exact h0
          constructor
          · exact F32.lt_zero_of_neg m _ hm
          · simp only [F32.specFloor, ← h, F32.truncMag, F32.signed]
            simp [hrem]
        · left
          simp only [F32.specFloor, hr, ← h, F32.truncMag]
          simp
    · cases h

/-- C16 as stated fails for a negative damage: at damage `-3`, world spell damage rate
`2.0f` and `damageMult` `1.5f` the product is `-2.25`, whose floor is `-3`, and the
damage left is `-2`. -/
theorem C16_negative_damage_is_truncated :
    (ModifySpellDamageTaken
        { creatureOverrides := [(299, (F32.fin false 12582912 (-23), F32.fin false 12582912 (-23)))] }
        ⟨fun _ => F32.fin false 8388608 (-22)⟩
        (some ⟨some
          { map := some ⟨some ⟨true, 0⟩, false⟩, zoneId := 12, entry := 299, isPet := false,
            isGuardian := false, rank := CreatureEliteType.CREATURE_ELITE_NORMAL,
            createHealth := 1000, maxHealth := 1000, health := 1000,
            healthBaseValue := F32.ofUInt32 1000, baseMin := F32.zero, baseMax := F32.zero,
            offMin := F32.zero, offMax := F32.zero, rngMin := F32.zero, rngMax := F32.zero,
            info := {} }⟩) (-3)).map Prod.snd = some (-2) ∧
    F32.mul (F32.div (F32.ofInt32 (-3)) (F32.fin false 8388608 (-22)))
      (F32.fin false 12582912 (-23)) = F32.fin true 9437184 (-22) ∧
    F32.specFloor (F32.mul (F32.div (F32.ofInt32 (-3)) (F32.fin false 8388608 (-22)))
      (F32.fin false 12582912 (-23))) = some (-3) := by
  decide

/-- C16, amended. For a nonzero incoming damage, a creature attacker whose resolved
source is `Continent`, `ZoneOverride` or `CreatureOverride` with `damageMult` at least
epsilon away from `1.0f`, and a positive world spell damage rate, let `p` be
`(float(damage) / worldSpellRate) * damageMult`. When `int32(p)` is a value `d`, the
damage left is `d`, except that `0` is replaced by `1` when `damageMult > 0` and stays
`0` otherwise; `d` is `p` with its fraction discarded: the floor of `p`, or one more than
the floor when `p` is negative. When `int32(p)` is undefined, so is the call. -/
theorem C16_spell_damage_formula (gConfig : OutdoorScalingConfig) (sWorld : World)
    (unit : Unit) (creature : Creature) (damage : Int) (scaling : ScalingResult)
    (hd : damage ≠ 0) (hu : unit.creature = some creature)
    (hs : ComputeScaling gConfig creature.map creature.zoneId creature.entry
      (creature.isPet || creature.isGuardian) = some scaling)
    (hsrc : scaling.source = Source.Continent ∨ scaling.source = Source.ZoneOverride ∨
      scaling.source = Source.CreatureOverride)
    (hmult : F32.le F32.epsilon (F32.abs (F32.sub scaling.damageMult F32.one)) = true)
    (hrate : F32.lt F32.zero (GetWorldSpellDamageRate sWorld (some creature)) = true) :
    (∀ d, F32.toInt32 (F32.mul
        (F32.div (F32.ofInt32 damage) (GetWorldSpellDamageRate sWorld (some creature)))
        scaling.damageMult) = some d →
      (ModifySpellDamageTaken gConfig sWorld (some unit) damage).map Prod.snd =
        some (if d = 0 then (if F32.lt F32.zero scaling.damageMult then 1 else 0) else d) ∧
      (F32.specFloor (F32.mul
          (F32.div (F32.ofInt32 damage) (GetWorldSpellDamageRate sWorld (some creature)))
          scaling.damageMult) = some d ∨
        (F32.lt (F32.mul
            (F32.div (F32.ofInt32 damage) (GetWorldSpellDamageRate sWorld (some creature)))
            scaling.damageMult) F32.zero = true ∧
          F32.specFloor (F32.mul
            (F32.div (F32.ofInt32 damage) (GetWorldSpellDamageRate sWorld (some creature)))
            scaling.damageMult) = some (d - 1)))) ∧
    (F32.toInt32 (F32.mul
        (F32.div (F32.ofInt32 damage) (GetWorldSpellDamageRate sWorld (some creature)))
        scaling.damageMult) = none →
      ModifySpellDamageTaken gConfig sWorld (some unit) damage = none) := by
  have hrate2 : ¬(F32.le (GetWorldSpellDamageRate sWorld (some creature)) F32.zero = true) := by
    rw [F32.le_zero_eq_false_of_pos _ hrate]
    simp
  have hmult2 : ¬(F32.lt (F32.abs (F32.sub scaling.damageMult F32.one)) F32.epsilon = true) := by
    rw [F32.lt_eq_false_of_le _ _ hmult]
    simp
  rw [ModifySpellDamageTaken_scaled gConfig sWorld unit creature damage scaling hd hu hs hsrc,
    if_neg hmult2, if_neg hrate2]
  constructor
  · intro d hconv
    rw [hconv]
    exact ⟨rfl, F32.toInt32_specFloor _ d hconv⟩
  · intro hconv
    rw [hconv]

/-- C16 amended, at damage 7, world spell damage rate `2.0f` and a creature override
`299 1.5`: the product is `5.25` and the damage left is 5, its floor. -/
theorem C16_spell_damage_formula_witness :
    (ModifySpellDamageTaken
        { creatureOverrides := [(299, (F32.fin false 12582912 (-23), F32.fin false 12582912 (-23)))] }
        ⟨fun _ => F32.fin false 8388608 (-22)⟩
        (some ⟨some
          { map := some ⟨some ⟨true, 0⟩, false⟩, zoneId := 12, entry := 299, isPet := false,
            isGuardian := false, rank := CreatureEliteType.CREATURE_ELITE_NORMAL,
            createHealth := 1000, maxHealth := 1000, health := 1000,
            healthBaseValue := F32.ofUInt32 1000, baseMin := F32.zero, baseMax := F32.zero,
            offMin := F32.zero, offMax := F32.zero, rngMin := F32.zero, rngMax := F32.zero,
            info := {} }⟩) 7).map Prod.snd = some 5 :=
  ((C16_spell_damage_formula
    { creatureOverrides := [(299, (F32.fin false 12582912 (-23), F32.fin false 12582912 (-23)))] }
    ⟨fun _ => F32.fin false 8388608 (-22)⟩
    ⟨some
      { map := some ⟨some ⟨true, 0⟩, false⟩, zoneId := 12, entry := 299, isPet := false,
        isGuardian := false, rank := CreatureEliteType.CREATURE_ELITE_NORMAL,
        createHealth := 1000, maxHealth := 1000, health := 1000,
        healthBaseValue := F32.ofUInt32 1000, baseMin := F32.zero, baseMax := F32.zero,
        offMin := F32.zero, offMax := F32.zero, rngMin := F32.zero, rngMax := F32.zero,
        info := {} }⟩
    { map := some ⟨some ⟨true, 0⟩, false⟩, zoneId := 12, entry := 299, isPet := false,
      isGuardian := false, rank := CreatureEliteType.CREATURE_ELITE_NORMAL,
      createHealth := 1000, maxHealth := 1000, health := 1000,
      healthBaseValue := F32.ofUInt32 1000, baseMin := F32.zero, baseMax := F32.zero,
      offMin := F32.zero, offMax := F32.zero, rngMin := F32.zero, rngMax := F32.zero,
      info := {} }
    7
    { healthMult := F32.fin false 12582912 (-23), damageMult := F32.fin false 12582912 (-23),
      source := Source.CreatureOverride, zoneId := 12, expansion := 0 }
    (by decide) rfl (by decide) (by decide) (by decide) (by decide)).1 5 (by decide)).1

/-- C17. Weapon damage application: when `damageMult` differs from `1.0f` by at least
epsilon and the world damage rate is positive, `ApplyDamageScale` replaces each of the
six weapon damage values by `(its current value / worldDamageRate) * damageMult`, a
float computed from that value alone and not rounded to an integer; when
`|damageMult - 1.0f| < epsilon` the creature is left as it is. -/
theorem C17_weapon_damage_application (sWorld : World) (creature : Creature) (mult : F32) :
    (F32.le F32.epsilon (F32.abs (F32.sub mult F32.one)) = true →
      F32.lt F32.zero (GetWorldDamageRate sWorld (some creature)) = true →
      ApplyDamageScale sWorld creature mult =
        { creature with
          baseMin := F32.mul (F32.div creature.baseMin
            (GetWorldDamageRate sWorld (some creature))) mult
          baseMax := F32.mul (F32.div creature.baseMax
            (GetWorldDamageRate sWorld (some creature))) mult
          offMin := F32.mul (F32.div creature.offMin
            (GetWorldDamageRate sWorld (some creature))) mult
          offMax := F32.mul (F32.div creature.offMax
            (GetWorldDamageRate sWorld (some creature))) mult
          rngMin := F32.mul (F32.div creature.rngMin
            (GetWorldDamageRate sWorld (some creature))) mult
          rngMax := F32.mul (F32.div creature.rngMax
            (GetWorldDamageRate sWorld (some creature))) mult }) ∧
    (F32.lt (F32.abs (F32.sub mult F32.one)) F32.epsilon = true →
      ApplyDamageScale sWorld creature mult = creature) := by
  constructor
  · intro hmult hrate
    have hrate2 : ¬(F32.le (GetWorldDamageRate sWorld (some creature)) F32.zero = true) := by
      rw [F32.le_zero_eq_false_of_pos _ hrate]
      simp
    have hmult2 : ¬(F32.lt (F32.abs (F32.sub mult F32.one)) F32.epsilon = true) := by
      rw [F32.lt_eq_false_of_le _ _ hmult]
      simp
    simp only [ApplyDamageScale, if_neg hmult2, if_neg hrate2]
    rfl
  · intro hmult
    simp only [ApplyDamageScale, if_pos hmult]

/-- C17, for weapon damage 10..20 and 3..4, world damage rate `2.0f` and multiplier
`1.5f` (giving 7.5..15 and 2.25..3), and for multiplier `1.0f`. -/
theorem C17_weapon_damage_application_witness :
    ApplyDamageScale ⟨fun _ => F32.fin false 8388608 (-22)⟩
        { map := none, zoneId := 12, entry := 299, isPet := false,
          isGuardian := false, rank := CreatureEliteType.CREATURE_ELITE_NORMAL,
          createHealth := 1000, maxHealth := 1000, health := 1000,
          healthBaseValue := F32.ofUInt32 1000,
          baseMin := F32.ofUInt32 10, baseMax := F32.ofUInt32 20,
          offMin := F32.zero, offMax := F32.zero,
          rngMin := F32.ofUInt32 3, rngMax := F32.ofUInt32 4, info := {} }
        (F32.fin false 12582912 (-23)) =
      { map := none, zoneId := 12, entry := 299, isPet := false,
        isGuardian := false, rank := CreatureEliteType.CREATURE_ELITE_NORMAL,
        createHealth := 1000, maxHealth := 1000, health := 1000,
        healthBaseValue := F32.ofUInt32 1000,
        baseMin := F32.fin false 15728640 (-21), baseMax := F32.fin false 15728640 (-20),
        offMin := F32.zero, offMax := F32.zero,
        rngMin := F32.fin false 9437184 (-22), rngMax := F32.fin false 12582912 (-22),
        info := {} } ∧
    ApplyDamageScale ⟨fun _ => F32.fin false 8388608 (-22)⟩
        { map := none, zoneId := 12, entry := 299, isPet := false,
          isGuardian := false, rank := CreatureEliteType.CREATURE_ELITE_NORMAL,
          createHealth := 1000, maxHealth := 1000, health := 1000,
          healthBaseValue := F32.ofUInt32 1000,
          baseMin := F32.ofUInt32 10, baseMax := F32.ofUInt32 20,
          offMin := F32.zero, offMax := F32.zero,
          rngMin := F32.ofUInt32 3, rngMax := F32.ofUInt32 4, info := {} }
        F32.one =
      { map := none, zoneId := 12, entry := 299, isPet := false,
        isGuardian := false, rank := CreatureEliteType.CREATURE_ELITE_NORMAL,
        createHealth := 1000, maxHealth := 1000, health := 1000,
        healthBaseValue := F32.ofUInt32 1000,
        baseMin := F32.ofUInt32 10, baseMax := F32.ofUInt32 20,
        offMin := F32.zero, offMax := F32.zero,
        rngMin := F32.ofUInt32 3, rngMax := F32.ofUInt32 4, info := {} } := by
  constructor
  · rw [(C17_weapon_damage_application ⟨fun _ => F32.fin false 8388608 (-22)⟩ _
      (F32.fin false 12582912 (-23))).1 (by decide) (by decide)]
    decide
  · exact (C17_weapon_damage_application ⟨fun _ => F32.fin false 8388608 (-22)⟩ _
      F32.one).2 (by decide)

/-- What stat initialization does when the resolved source is none of the three scaled
sources: the cached record is written and nothing else. -/
theorem OnCreatureSelectLevel_unscaled (gConfig : OutdoorScalingConfig) (sWorld : World)
    (creature : Creature) (scaling : ScalingResult)
    (hs : ComputeScaling gConfig creature.map creature.zoneId creature.entry
      (creature.isPet || creature.isGuardian) = some scaling)
    (hsrc : scaling.source ≠ Source.Continent ∧ scaling.source ≠ Source.ZoneOverride ∧
      scaling.source ≠ Source.CreatureOverride) :
    OnCreatureSelectLevel gConfig sWorld (some creature) =
      some (some (storeInfo creature scaling)) := by
  simp only [OnCreatureSelectLevel, hs, if_pos hsrc]

/-- `ApplyDamageScale` leaves the creature as it is when the multiplier is within epsilon
of `1.0f`. -/
theorem ApplyDamageScale_near_one (sWorld : World) (creature : Creature) (mult : F32)
    (h : F32.lt (F32.abs (F32.sub mult F32.one)) F32.epsilon = true) :
    ApplyDamageScale sWorld creature mult = creature := by
  simp only [ApplyDamageScale, if_pos h]

/-- `ApplyDamageScale` depends on the world through the normalised damage rate of the
creature's rank alone. -/
theorem ApplyDamageScale_rate (sWorld sWorld2 : World) (c0 creature : Creature) (mult : F32)
    (hrank : creature.rank = c0.rank)
    (h : (if F32.le (GetWorldDamageRate sWorld (some c0)) F32.zero then F32.one
          else GetWorldDamageRate sWorld (some c0)) =
         (if F32.le (GetWorldDamageRate sWorld2 (some c0)) F32.zero then F32.one
          else GetWorldDamageRate sWorld2 (some c0))) :
    ApplyDamageScale sWorld creature mult = ApplyDamageScale sWorld2 creature mult := by
  rw [← GetWorldDamageRate_rank sWorld creature c0 hrank,
    ← GetWorldDamageRate_rank sWorld2 creature c0 hrank] at h
  simp only [ApplyDamageScale, h]

/-- The literal `1.0f` fails the test `x <= 0.0f`. -/
theorem F32.one_le_zero : F32.le F32.one F32.zero = false := by decide

/-- C18. Non-positive base rates are neutralised: stat initialization under a world
health rate `<= 0.0f` gives the result it gives when that rate is `1.0f` (the damage
rate being the same), `ApplyDamageScale` under a world damage rate `<= 0.0f` gives the
result it gives when that rate is `1.0f`, and `ModifySpellDamageTaken` under a world
spell damage rate `<= 0.0f` gives the result it gives when that rate is `1.0f`. -/
theorem C18_non_positive_rates_neutralised (gConfig : OutdoorScalingConfig)
    (sWorld sWorld2 : World) (creature : Creature) :
    (F32.le (GetWorldHealthRate sWorld (some creature)) F32.zero = true →
      GetWorldHealthRate sWorld2 (some creature) = F32.one →
      GetWorldDamageRate sWorld2 (some creature) = GetWorldDamageRate sWorld (some creature) →
      OnCreatureSelectLevel gConfig sWorld (some creature) =
        OnCreatureSelectLevel gConfig sWorld2 (some creature)) ∧
    (∀ mult, F32.le (GetWorldDamageRate sWorld (some creature)) F32.zero = true →
      GetWorldDamageRate sWorld2 (some creature) = F32.one →
      ApplyDamageScale sWorld creature mult = ApplyDamageScale sWorld2 creature mult) ∧
    (∀ (unit : Unit) (damage : Int), unit.creature = some creature →
      F32.le (GetWorldSpellDamageRate sWorld (some creature)) F32.zero = true →
      GetWorldSpellDamageRate sWorld2 (some creature) = F32.one →
      ModifySpellDamageTaken gConfig sWorld (some unit) damage =
        ModifySpellDamageTaken gConfig sWorld2 (some unit) damage) := by
  obtain ⟨s, hs⟩ := ComputeScaling_isSome gConfig creature.map creature.zoneId creature.entry
    (creature.isPet || creature.isGuardian)
  have hone : ¬(F32.le F32.one F32.zero = true) := by decide
  refine ⟨?_, ?_, ?_⟩
  · intro hle h2 hdmg
    by_cases hsrc : s.source ≠ Source.Continent ∧ s.source ≠ Source.ZoneOverride ∧
        s.source ≠ Source.CreatureOverride
    · rw [OnCreatureSelectLevel_unscaled gConfig sWorld creature s hs hsrc,
        OnCreatureSelectLevel_unscaled gConfig sWorld2 creature s hs hsrc]
    · have hsrc2 : s.source = Source.Continent ∨ s.source = Source.ZoneOverride ∨
          s.source = Source.CreatureOverride := by
        by_contra hcon
        simp only [not_or] at hcon
        exact hsrc hcon
      have hd : (if F32.le (GetWorldDamageRate sWorld (some creature)) F32.zero then F32.one
            else GetWorldDamageRate sWorld (some creature)) =
          (if F32.le (GetWorldDamageRate sWorld2 (some creature)) F32.zero then F32.one
            else GetWorldDamageRate sWorld2 (some creature)) := by rw [hdmg]
      rw [OnCreatureSelectLevel_scaled gConfig sWorld creature s hs hsrc2,
        OnCreatureSelectLevel_scaled gConfig sWorld2 creature s hs hsrc2,
        if_pos hle, h2, if_neg hone]
      split
      · split
        · rfl
        · refine congrArg _ (congrArg _
            (ApplyDamageScale_rate sWorld sWorld2 creature _ _ ?_ hd))
          rfl
      · refine congrArg _ (congrArg _
          (ApplyDamageScale_rate sWorld sWorld2 creature _ _ ?_ hd))
        rfl
  · intro mult hle h2
    apply ApplyDamageScale_rate sWorld sWorld2 creature creature mult rfl
    rw [if_pos hle, h2, if_neg hone]
  · intro unit damage hu hle h2
    by_cases hd : damage = 0
    · simp only [ModifySpellDamageTaken, hd, if_true]
    · by_cases hsrc : s.source ≠ Source.Continent ∧ s.source ≠ Source.ZoneOverride ∧
          s.source ≠ Source.CreatureOverride
      · rw [ModifySpellDamageTaken_unscaled gConfig sWorld unit creature damage s hd hu hs hsrc,
          ModifySpellDamageTaken_unscaled gConfig sWorld2 unit creature damage s hd hu hs hsrc]
      · have hsrc2 : s.source = Source.Continent ∨ s.source = Source.ZoneOverride ∨
            s.source = Source.CreatureOverride := by
          by_contra hcon
          simp only [not_or] at hcon
          exact hsrc hcon
        rw [ModifySpellDamageTaken_scaled gConfig sWorld unit creature damage s hd hu hs hsrc2,
          ModifySpellDamageTaken_scaled gConfig sWorld2 unit creature damage s hd hu hs hsrc2,
          if_pos hle, h2, if_neg hone]

/-- C18, for a normal-rank creature with a creature override `299 1.5` under a world
health rate `-1.0f` and under the world health rate `1.0f`. -/
theorem C18_non_positive_rates_neutralised_witness :
    OnCreatureSelectLevel
        { creatureOverrides := [(299, (F32.fin false 12582912 (-23), F32.fin false 12582912 (-23)))] }
        ⟨fun r => if r = Rates.RATE_CREATURE_NORMAL_HP then F32.fin true 8388608 (-23)
          else F32.fin false 8388608 (-22)⟩
        (some
          { map := some ⟨some ⟨true, 0⟩, false⟩, zoneId := 12, entry := 299, isPet := false,
            isGuardian := false, rank := CreatureEliteType.CREATURE_ELITE_NORMAL,
            createHealth := 1000, maxHealth := 1000, health := 1000,
            healthBaseValue := F32.ofUInt32 1000, baseMin := F32.zero, baseMax := F32.zero,
            offMin := F32.zero, offMax := F32.zero, rngMin := F32.zero, rngMax := F32.zero,
            info := {} }) =
      OnCreatureSelectLevel
        { creatureOverrides := [(299, (F32.fin false 12582912 (-23), F32.fin false 12582912 (-23)))] }
        ⟨fun r => if r = Rates.RATE_CREATURE_NORMAL_HP then F32.one
          else F32.fin false 8388608 (-22)⟩
        (some
          { map := some ⟨some ⟨true, 0⟩, false⟩, zoneId := 12, entry := 299, isPet := false,
            isGuardian := false, rank := CreatureEliteType.CREATURE_ELITE_NORMAL,
            createHealth := 1000, maxHealth := 1000, health := 1000,
            healthBaseValue := F32.ofUInt32 1000, baseMin := F32.zero, baseMax := F32.zero,
            offMin := F32.zero, offMax := F32.zero, rngMin := F32.zero, rngMax := F32.zero,
            info := {} }) :=
  (C18_non_positive_rates_neutralised _ _ _ _).1 (by decide) (by decide) (by decide)

/-- C19. Unscaled sources leave stats untouched: when the resolved source is `Disabled`,
`NotOutdoor` or `PetOrGuardian`, stat initialization returns the creature with its cached
record rewritten from the result and every other member as before (create-health,
max-health, health, base-value health modifier and the six weapon damage values among
them), and `ModifySpellDamageTaken` leaves the damage amount as it is, rewriting the
cached record of the attacker when the damage is nonzero. -/
theorem C19_unscaled_sources_leave_stats (gConfig : OutdoorScalingConfig) (sWorld : World)
    (creature : Creature) (scaling : ScalingResult)
    (hs : ComputeScaling gConfig creature.map creature.zoneId creature.entry
      (creature.isPet || creature.isGuardian) = some scaling)
    (hsrc : scaling.source = Source.Disabled ∨ scaling.source = Source.NotOutdoor ∨
      scaling.source = Source.PetOrGuardian) :
    OnCreatureSelectLevel gConfig sWorld (some creature) =
      some (some { creature with
        info := { healthMult := scaling.healthMult, damageMult := scaling.damageMult,
                  zoneId := scaling.zoneId, expansion := scaling.expansion,
                  source := scaling.source } }) ∧
    (∀ (unit : Unit) (damage : Int), unit.creature = some creature →
      ModifySpellDamageTaken gConfig sWorld (some unit) damage =
        some (some { unit with
          creature := some (if damage = 0 then creature else
            { creature with
              info := { healthMult := scaling.healthMult, damageMult := scaling.damageMult,
                        zoneId := scaling.zoneId, expansion := scaling.expansion,
                        source := scaling.source } }) }, damage)) := by
  have hsrc2 : scaling.source ≠ Source.Continent ∧ scaling.source ≠ Source.ZoneOverride ∧
      scaling.source ≠ Source.CreatureOverride := by
    rcases hsrc with h | h | h <;> simp [h]
  constructor
  · rw [OnCreatureSelectLevel_unscaled gConfig sWorld creature scaling hs hsrc2]
    rfl
  · intro unit damage hu
    by_cases hd : damage = 0
    · obtain ⟨uc⟩ := unit
      simp only at hu
      subst hu
      simp only [ModifySpellDamageTaken, hd, if_true]
    · rw [ModifySpellDamageTaken_unscaled gConfig sWorld unit creature damage scaling hd hu hs
        hsrc2, if_neg hd]
      rfl

/-- C19, for a pet on a continent map whose template id has an override: health and
weapon values stay, the damage 40 stays. -/
theorem C19_unscaled_sources_leave_stats_witness :
    OnCreatureSelectLevel
        { creatureOverrides := [(299, (F32.fin false 12582912 (-23), F32.fin false 12582912 (-23)))] }
        ⟨fun _ => F32.fin false 8388608 (-22)⟩
        (some
          { map := some ⟨some ⟨true, 0⟩, false⟩, zoneId := 12, entry := 299, isPet := true,
            isGuardian := false, rank := CreatureEliteType.CREATURE_ELITE_NORMAL,
            createHealth := 1000, maxHealth := 1000, health := 1000,
            healthBaseValue := F32.ofUInt32 1000,
            baseMin := F32.ofUInt32 10, baseMax := F32.ofUInt32 20,
            offMin := F32.zero, offMax := F32.zero,
            rngMin := F32.ofUInt32 3, rngMax := F32.ofUInt32 4, info := {} }) =
      some (some
        { map := some ⟨some ⟨true, 0⟩, false⟩, zoneId := 12, entry := 299, isPet := true,
          isGuardian := false, rank := CreatureEliteType.CREATURE_ELITE_NORMAL,
          createHealth := 1000, maxHealth := 1000, health := 1000,
          healthBaseValue := F32.ofUInt32 1000,
          baseMin := F32.ofUInt32 10, baseMax := F32.ofUInt32 20,
          offMin := F32.zero, offMax := F32.zero,
          rngMin := F32.ofUInt32 3, rngMax := F32.ofUInt32 4,
          info := { healthMult := F32.one, damageMult := F32.one, zoneId := 12,
                    expansion := 0, source := Source.PetOrGuardian } }) :=
  (C19_unscaled_sources_leave_stats
    { creatureOverrides := [(299, (F32.fin false 12582912 (-23), F32.fin false 12582912 (-23)))] }
    ⟨fun _ => F32.fin false 8388608 (-22)⟩
    { map := some ⟨some ⟨true, 0⟩, false⟩, zoneId := 12, entry := 299, isPet := true,
      isGuardian := false, rank := CreatureEliteType.CREATURE_ELITE_NORMAL,
      createHealth := 1000, maxHealth := 1000, health := 1000,
      healthBaseValue := F32.ofUInt32 1000,
      baseMin := F32.ofUInt32 10, baseMax := F32.ofUInt32 20,
      offMin := F32.zero, offMax := F32.zero,
      rngMin := F32.ofUInt32 3, rngMax := F32.ofUInt32 4, info := {} }
    { healthMult := F32.one, damageMult := F32.one, source := Source.PetOrGuardian,
      zoneId := 12, expansion := 0 }
    (by decide) (by decide)).1

/-- With the default tables every result of the resolver has both multipliers `1.0f`. -/
theorem ComputeScaling_default (map : Option Map) (zoneId creatureEntry : Nat)
    (isPetOrGuardian : Bool) :
    ∃ s, ComputeScaling {} map zoneId creatureEntry isPetOrGuardian = some s ∧
      s.healthMult = F32.one ∧ s.damageMult = F32.one := by
  have hcl : ∀ e, ClampExpansion e = 0 ∨ ClampExpansion e = 1 ∨ ClampExpansion e = 2 := by
    intro e
    unfold ClampExpansion
    split <;> omega
  cases map with
  | none => exact ⟨_, rfl, rfl, rfl⟩
  | some m =>
    by_cases hout : IsOutdoorContinent (some m) = true
    · cases isPetOrGuardian with
      | true =>
        refine ⟨{ zoneId := zoneId, source := Source.PetOrGuardian }, ?_, rfl, rfl⟩
        simp [ComputeScaling, hout]
      | false =>
        cases hentry : m.entry with
        | none => simp [IsOutdoorContinent, hentry] at hout
        | some entry =>
          rcases hcl entry.expansion with h | h | h <;>
            simp [ComputeScaling, hout, hentry, h, UMap.find, Array3.get?]
    · refine ⟨{ zoneId := zoneId, source := Source.NotOutdoor }, ?_, rfl, rfl⟩
      simp [ComputeScaling, hout]

/-- C20. The default configuration changes nothing: with `enabled` true, all six
continent multipliers `1.0f` and both override tables read from the empty string, the
resolver returns both multipliers `1.0f` for every map, zone, creature and flag; stat
initialization returns the creature with every member but the cached record as before;
and `ModifySpellDamageTaken` leaves every damage amount as it is, under every world
rate. -/
theorem C20_default_configuration_changes_nothing (gConfig : OutdoorScalingConfig)
    (hen : gConfig.enabled = true)
    (hch : gConfig.continentHealth = ⟨F32.one, F32.one, F32.one⟩)
    (hcd : gConfig.continentDamage = ⟨F32.one, F32.one, F32.one⟩)
    (hzo : gConfig.zoneOverrides = ParseOverrideString [])
    (hco : gConfig.creatureOverrides = ParseOverrideString []) :
    (∀ map zoneId creatureEntry isPetOrGuardian,
      ∃ s, ComputeScaling gConfig map zoneId creatureEntry isPetOrGuardian = some s ∧
        s.healthMult = F32.one ∧ s.damageMult = F32.one) ∧
    (∀ (sWorld : World) (creature : Creature),
      ∃ info, OnCreatureSelectLevel gConfig sWorld (some creature) =
        some (some { creature with info := info })) ∧
    (∀ (sWorld : World) (attacker : Option Unit) (damage : Int),
      (ModifySpellDamageTaken gConfig sWorld attacker damage).map Prod.snd = some damage) := by
  have hg : gConfig = {} := by
    obtain ⟨en, ch, cd, zo, co⟩ := gConfig
    simp only at hen hch hcd hzo hco
    subst hen hch hcd hzo hco
    rfl
  subst hg
  have hnear : F32.lt (F32.abs (F32.sub F32.one F32.one)) F32.epsilon = true := by decide
  have hfar : ¬(F32.le F32.epsilon (F32.abs (F32.sub F32.one F32.one)) = true) := by decide
  refine ⟨ComputeScaling_default, ?_, ?_⟩
  · intro sWorld creature
    obtain ⟨s, hs, hh, hdm⟩ := ComputeScaling_default creature.map creature.zoneId
      creature.entry (creature.isPet || creature.isGuardian)
    by_cases hsrc : s.source ≠ Source.Continent ∧ s.source ≠ Source.ZoneOverride ∧
        s.source ≠ Source.CreatureOverride
    · rw [OnCreatureSelectLevel_unscaled {} sWorld creature s hs hsrc]
      exact ⟨_, rfl⟩
    · have hsrc2 : s.source = Source.Continent ∨ s.source = Source.ZoneOverride ∨
          s.source = Source.CreatureOverride := by
        by_contra hcon
        simp only [not_or] at hcon
        exact hsrc hcon
      rw [OnCreatureSelectLevel_scaled {} sWorld creature s hs hsrc2, hh, hdm, if_neg hfar,
        ApplyDamageScale_near_one _ _ _ hnear]
      exact ⟨_, rfl⟩
  · intro sWorld attacker damage
    cases attacker with
    | none => rfl
    | some unit =>
      by_cases hd : damage = 0
      · simp only [ModifySpellDamageTaken, hd, if_true, Option.map_some']
      · cases hu : unit.creature with
        | none => simp only [ModifySpellDamageTaken, if_neg hd, hu, Option.map_some']
        | some c =>
          obtain ⟨s, hs, hh, hdm⟩ := ComputeScaling_default c.map c.zoneId c.entry
            (c.isPet || c.isGuardian)
          by_cases hsrc : s.source ≠ Source.Continent ∧ s.source ≠ Source.ZoneOverride ∧
              s.source ≠ Source.CreatureOverride
          · rw [ModifySpellDamageTaken_unscaled {} sWorld unit c damage s hd hu hs hsrc]
            rfl
          · have hsrc2 : s.source = Source.Continent ∨ s.source = Source.ZoneOverride ∨
                s.source = Source.CreatureOverride := by
              by_contra hcon
              simp only [not_or] at hcon
              exact hsrc hcon
            rw [ModifySpellDamageTaken_scaled {} sWorld unit c damage s hd hu hs hsrc2, hdm,
              if_pos hnear]
            rfl

/-- C20, for the configuration loaded from a source that sets no option: a creature on a
continent map keeps its damage 40 under a world spell damage rate `2.0f`. -/
theorem C20_default_configuration_changes_nothing_witness :
    (ModifySpellDamageTaken
        (OnBeforeConfigLoad ⟨fun _ => none, fun _ => none, fun _ => none⟩ {})
        ⟨fun _ => F32.fin false 8388608 (-22)⟩
        (some ⟨some
          { map := some ⟨some ⟨true, 0⟩, false⟩, zoneId := 12, entry := 299, isPet := false,
            isGuardian := false, rank := CreatureEliteType.CREATURE_ELITE_NORMAL,
            createHealth := 1000, maxHealth := 1000, health := 1000,
            healthBaseValue := F32.ofUInt32 1000, baseMin := F32.zero, baseMax := F32.zero,
            offMin := F32.zero, offMax := F32.zero, rngMin := F32.zero, rngMax := F32.zero,
            info := {} }⟩) 40).map Prod.snd = some 40 :=
  (C20_default_configuration_changes_nothing
    (OnBeforeConfigLoad ⟨fun _ => none, fun _ => none, fun _ => none⟩ {})
    rfl rfl rfl rfl rfl).2.2 _ _ 40

/-! ## Continent-table subscripts -/

/-- A clamped expansion is one of the three table subscripts. -/
theorem ClampExpansion_cases (expansion : Nat) :
    ClampExpansion expansion = 0 ∨ ClampExpansion expansion = 1 ∨
      ClampExpansion expansion = 2 := by
  unfold ClampExpansion
  split <;> omega

/-- A subscript among `0`, `1`, `2` addresses a slot of the table. -/
theorem Array3.get?_of_cases (a : Array3) (i : Nat) (hi : i = 0 ∨ i = 1 ∨ i = 2) :
    ∃ x, a.get? i = some x := by
  rcases hi with h | h | h <;> subst h
  · exact ⟨a.a0, rfl⟩
  · exact ⟨a.a1, rfl⟩
  · exact ⟨a.a2, rfl⟩

/-- The resolver returns a result on every input, and the `expansion` it reports is `0`
on the `Disabled`, `NotOutdoor` and `PetOrGuardian` exits and the clamped expansion of
the map's entry otherwise. -/
theorem ComputeScaling_expansion (gConfig : OutdoorScalingConfig) (map : Option Map)
    (zoneId creatureEntry : Nat) (isPetOrGuardian : Bool) :
    ∃ s, ComputeScaling gConfig map zoneId creatureEntry isPetOrGuardian = some s ∧
      (((s.source = Source.Disabled ∨ s.source = Source.NotOutdoor ∨
          s.source = Source.PetOrGuardian) ∧ s.expansion = 0) ∨
       ((s.source = Source.Continent ∨ s.source = Source.ZoneOverride ∨
          s.source = Source.CreatureOverride) ∧
         ∃ m entry, map = some m ∧ m.entry = some entry ∧
           s.expansion = ClampExpansion entry.expansion)) := by
  by_cases hen : gConfig.enabled = true
  · cases map with
    | none =>
      refine ⟨{ zoneId := zoneId, source := Source.NotOutdoor }, ?_, Or.inl ⟨by simp, rfl⟩⟩
      simp [ComputeScaling, hen]
    | some m =>
      by_cases hout : IsOutdoorContinent (some m) = true
      · cases isPetOrGuardian with
        | true =>
          refine ⟨{ zoneId := zoneId, source := Source.PetOrGuardian }, ?_,
            Or.inl ⟨by simp, rfl⟩⟩
          simp [ComputeScaling, hen, hout]
        | false =>
          cases hentry : m.entry with
          | none => simp [IsOutdoorContinent, hentry] at hout
          | some entry =>
            cases hc : gConfig.creatureOverrides.find creatureEntry with
            | some p =>
              refine ⟨{ healthMult := p.1, damageMult := p.2,
                        source := Source.CreatureOverride, zoneId := zoneId,
                        expansion := ClampExpansion entry.expansion }, ?_,
                Or.inr ⟨by simp, m, entry, rfl, hentry, rfl⟩⟩
              simp [ComputeScaling, hen, hout, hentry, hc]
            | none =>
              cases hz : gConfig.zoneOverrides.find zoneId with
              | some p =>
                refine ⟨{ healthMult := p.1, damageMult := p.2,
                          source := Source.ZoneOverride, zoneId := zoneId,
                          expansion := ClampExpansion entry.expansion }, ?_,
                  Or.inr ⟨by simp, m, entry, rfl, hentry, rfl⟩⟩
                simp [ComputeScaling, hen, hout, hentry, hc, hz]
              | none =>
                obtain ⟨h, hh⟩ := Array3.get?_of_cases gConfig.continentHealth _
                  (ClampExpansion_cases entry.expansion)
                obtain ⟨d, hd⟩ := Array3.get?_of_cases gConfig.continentDamage _
                  (ClampExpansion_cases entry.expansion)
                refine ⟨{ healthMult := h, damageMult := d,
                          source := Source.Continent, zoneId := zoneId,
                          expansion := ClampExpansion entry.expansion }, ?_,
                  Or.inr ⟨by simp, m, entry, rfl, hentry, rfl⟩⟩
                simp [ComputeScaling, hen, hout, hentry, hc, hz, hh, hd]
      · refine ⟨{ zoneId := zoneId, source := Source.NotOutdoor }, ?_,
          Or.inl ⟨by simp, rfl⟩⟩
        simp [ComputeScaling, hen, hout]
  · refine ⟨{ zoneId := zoneId, source := Source.Disabled }, ?_, Or.inl ⟨by simp, rfl⟩⟩
    simp [ComputeScaling, hen]

/-- C21. Continent-table subscripts are in bounds: on every input `ComputeScaling` returns
a result whose `expansion` is 0, 1 or 2 (0 on the `Disabled`, `NotOutdoor` and
`PetOrGuardian` exits, the clamped expansion of the map's entry otherwise), at which both
continent tables have a slot; and neither `HandleOSMapStat` nor `HandleOSCreatureStat`
ever subscripts a continent table outside its three slots. -/
theorem C21_continent_subscripts_in_bounds (gConfig : OutdoorScalingConfig) :
    (∀ (map : Option Map) (zoneId creatureEntry : Nat) (isPetOrGuardian : Bool),
      ∃ s, ComputeScaling gConfig map zoneId creatureEntry isPetOrGuardian = some s ∧
        (s.expansion = 0 ∨ s.expansion = 1 ∨ s.expansion = 2) ∧
        (((s.source = Source.Disabled ∨ s.source = Source.NotOutdoor ∨
            s.source = Source.PetOrGuardian) ∧ s.expansion = 0) ∨
         ((s.source = Source.Continent ∨ s.source = Source.ZoneOverride ∨
            s.source = Source.CreatureOverride) ∧
           ∃ m entry, map = some m ∧ m.entry = some entry ∧
             s.expansion = ClampExpansion entry.expansion)) ∧
        (∃ h d, gConfig.continentHealth.get? s.expansion = some h ∧
          gConfig.continentDamage.get? s.expansion = some d)) ∧
    (∀ (map : Map) (mapName : List Char) (mapId zoneId : Nat),
      HandleOSMapStat gConfig map mapName mapId zoneId ≠ Except.error Fault.subscript) ∧
    (∀ (creature : Option Creature) (creatureName : List Char) (mapId : Nat),
      HandleOSCreatureStat gConfig creature creatureName mapId ≠
        Except.error Fault.subscript) := by
  have key : ∀ (map : Option Map) (zoneId creatureEntry : Nat) (isPetOrGuardian : Bool),
      ∃ s, ComputeScaling gConfig map zoneId creatureEntry isPetOrGuardian = some s ∧
        (s.expansion = 0 ∨ s.expansion = 1 ∨ s.expansion = 2) ∧
        (((s.source = Source.Disabled ∨ s.source = Source.NotOutdoor ∨
            s.source = Source.PetOrGuardian) ∧ s.expansion = 0) ∨
         ((s.source = Source.Continent ∨ s.source = Source.ZoneOverride ∨
            s.source = Source.CreatureOverride) ∧
           ∃ m entry, map = some m ∧ m.entry = some entry ∧
             s.expansion = ClampExpansion entry.expansion)) ∧
        (∃ h d, gConfig.continentHealth.get? s.expansion = some h ∧
          gConfig.continentDamage.get? s.expansion = some d) := by
    intro map zoneId creatureEntry isPetOrGuardian
    obtain ⟨s, hs, hexp⟩ := ComputeScaling_expansion gConfig map zoneId creatureEntry
      isPetOrGuardian
    have hcases : s.expansion = 0 ∨ s.expansion = 1 ∨ s.expansion = 2 := by
      rcases hexp with ⟨_, h0⟩ | ⟨_, m, entry, _, _, hcl⟩
      · exact Or.inl h0
      · rw [hcl]; exact ClampExpansion_cases entry.expansion
    obtain ⟨h, hh⟩ := Array3.get?_of_cases gConfig.continentHealth _ hcases
    obtain ⟨d, hd⟩ := Array3.get?_of_cases gConfig.continentDamage _ hcases
    exact ⟨s, hs, hcases, hexp, h, d, hh, hd⟩
  refine ⟨key, ?_, ?_⟩
  · intro map mapName mapId zoneId
    obtain ⟨s, hs, _, _, h, d, hh, hd⟩ := key (some map) zoneId 0 false
    simp only [HandleOSMapStat, hs, hh, hd]
    split
    · simp
    · split <;> simp
  · intro creature creatureName mapId
    cases creature with
    | none => simp [HandleOSCreatureStat]
    | some c =>
      cases hmap : c.map with
      | none => simp [HandleOSCreatureStat, hmap]
      | some m =>
        obtain ⟨s, hs, _, _, h, d, hh, hd⟩ := key (some m) c.zoneId c.entry
          (c.isPet || c.isGuardian)
        simp only [HandleOSCreatureStat, hmap, hs, hh, hd]
        split <;> simp

end OutdoorScaling
